import Mathlib

/-!
# Feedback widgets: `ChatFeedbackButton.jsx` and `SummaryFeedbackButton.jsx`

A shallow embedding of the two React components and proofs about their
feedback-submission state machine.

Modelling conventions.

* A rating is the string enum `'thumbs_up' | 'thumbs_down'`; `null` is `none`.
* `useState` cells are the fields of a state record; a setter call overwrites
  the field of the *current* state, while the values a handler reads
  (`userRating`, `submitting`, `feedbackText`, the props) are those of the
  render that created it.  React re-renders after every discrete event, so a
  handler closes over the state in force when its event fires.
* Calls on `apiService`, `alert`, `console.error` and the parent callback are
  recorded, in order, in a trace of effects.  The result of an awaited call is
  an `Outcome` supplied from outside: the remote service is not part of the
  components.  The parent callback, when provided, either returns or throws.
* Every handler is given twice: as a run-to-completion program in a small
  exception-and-state monad that mirrors the JavaScript text (`try`, `catch`,
  `finally` included), and split at its `await`s into the steps of an
  event-driven machine in which requests stay pending until they settle.
  The two are proved to agree.
* The textarea's `maxLength` is an attribute of the rendered panel; the
  `onChange` handler stores whatever value it is given.
* String length is counted in Lean characters.
-/

namespace Feedback

/-! ## Shared vocabulary -/

/-- The two values a rating control can send. -/
inductive Rating where
  | thumbs_up
  | thumbs_down
  deriving DecidableEq, Repr

/-- How an awaited promise settles. -/
inductive Outcome (α : Type) where
  | resolved (value : α)
  | rejected (error : String)
  deriving DecidableEq, Repr

/-- What a call of the parent callback `onFeedbackSubmitted` does. -/
inductive Callback where
  | returns
  | throws (error : String)
  deriving DecidableEq, Repr

/-- The callback is absent or returns normally when called. -/
def callbackReturns (cb : Option Callback) : Bool :=
  match cb with
  | some (.throws _) => false
  | _ => true

/-- The `statistics` object of a summary feedback response. -/
structure Statistics where
  thumbs_up_count : Int
  total_feedback : Int
  deriving DecidableEq, Repr

/-- Observable actions of a component, in the order they happen. -/
inductive Effect where
  | getChatMessageFeedback (messageId : String)
  | submitChatFeedback (message_id : String) (rating : Option Rating)
  | getSummaryFeedback (referenceType referenceId : String)
  | submitSummaryFeedback (reference_type reference_id : String)
      (rating : Option Rating) (feedback_text : Option String)
  | alert (message : String)
  | consoleError (message : String)
  | onFeedbackSubmitted
  deriving DecidableEq, Repr

/-- Calls on the remote feedback client (`apiService`). -/
def Effect.isClientCall : Effect → Bool
  | .getChatMessageFeedback _ => true
  | .submitChatFeedback _ _ => true
  | .getSummaryFeedback _ _ => true
  | .submitSummaryFeedback _ _ _ _ => true
  | _ => false

/-- Submit calls on the remote feedback client. -/
def Effect.isSubmitCall : Effect → Bool
  | .submitChatFeedback _ _ => true
  | .submitSummaryFeedback _ _ _ _ => true
  | _ => false

/-- Blocking browser alerts. -/
def Effect.isAlert : Effect → Bool
  | .alert _ => true
  | _ => false

/-- Invocations of the parent callback. -/
def Effect.isCallback : Effect → Bool
  | .onFeedbackSubmitted => true
  | _ => false

/-- The `rating` field of a submit call. -/
def Effect.submittedRating : Effect → Option (Option Rating)
  | .submitChatFeedback _ rating => some rating
  | .submitSummaryFeedback _ _ rating _ => some rating
  | _ => none

/-- The `feedback_text` field of a submit call. -/
def Effect.submittedText : Effect → Option (Option String)
  | .submitSummaryFeedback _ _ _ text => some text
  | _ => none

/-- JavaScript truthiness of a string. -/
def truthy (s : String) : Bool := s != ""

/-- The JavaScript expression `s || null` on a string. -/
def orNull (s : String) : Option String := if s = "" then none else some s

/-- The JavaScript expression `t || ''` on a string that may be absent. -/
def orEmpty (t : Option String) : String :=
  match t with
  | some s => s
  | none => ""

/-! ## A small monad for handler bodies -/

/-- Component state together with the effects performed so far. -/
structure World (σ : Type) where
  state : σ
  trace : List Effect

/-- Handler programs: state that survives a throw, plus exceptions. -/
abbrev Js (σ : Type) (α : Type) := ExceptT String (StateM (World σ)) α

/-- Perform an observable action. -/
def emit {σ : Type} (e : Effect) : Js σ Unit :=
  modify fun w => { w with trace := w.trace ++ [e] }

/-- A `useState` setter, applied to the current state. -/
def setState {σ : Type} (f : σ → σ) : Js σ Unit :=
  modify fun w => { w with state := f w.state }

/-- The state of the render whose closure the handler is. -/
def rendered {σ : Type} : Js σ σ := do
  return (← get).state

/-- The expression `await promise`: the value, or a throw when it rejects. -/
def await {σ α : Type} (o : Outcome α) : Js σ α :=
  match o with
  | .resolved a => pure a
  | .rejected e => throw e

/-- The call `onFeedbackSubmitted()`. -/
def invoke {σ : Type} (cb : Callback) : Js σ Unit := do
  emit .onFeedbackSubmitted
  match cb with
  | .returns => pure ()
  | .throws e => throw e

/-- Run a handler from a state with an empty trace. -/
def runJs {σ α : Type} (m : Js σ α) (s : σ) : Except String α × World σ :=
  (m.run).run { state := s, trace := [] }

/-! ## ChatFeedbackButton.jsx -/

namespace ChatFeedbackButton

/-- Props and context: `{ messageId, onFeedbackSubmitted }` and `useAuth()`.
The callback, when one is passed, is represented by what calling it does. -/
structure Props where
  isAuthenticated : Bool
  messageId : String
  onFeedbackSubmitted : Option Callback
  deriving DecidableEq, Repr

/-- The four `useState` cells (lines 9-12). -/
structure State where
  userRating : Option Rating
  submitting : Bool
  loading : Bool
  submitted : Bool
  deriving DecidableEq, Repr

/-- Initial values of the `useState` cells. -/
def State.initial : State :=
  { userRating := none, submitting := false, loading := false, submitted := false }

/-- The `user_feedback` object of a chat feedback response. -/
structure UserFeedback where
  rating : Option Rating
  deriving DecidableEq, Repr

/-- What `getChatMessageFeedback` resolves to. -/
structure Response where
  user_feedback : Option UserFeedback
  deriving DecidableEq, Repr

def setUserRating (v : Option Rating) : Js State Unit :=
  setState fun t => { t with userRating := v }

def setSubmitting (v : Bool) : Js State Unit :=
  setState fun t => { t with submitting := v }

def setLoading (v : Bool) : Js State Unit :=
  setState fun t => { t with loading := v }

def setSubmitted (v : Bool) : Js State Unit :=
  setState fun t => { t with submitted := v }

/-- Lines 21-36. -/
def loadFeedback (p : Props) (getResult : Outcome (Option Response)) : Js State Unit := do
  if !p.isAuthenticated || !truthy p.messageId then
    return
  setLoading true
  try
    emit (.getChatMessageFeedback p.messageId)
    let response ← await getResult
    match response with
    | some r =>
      match r.user_feedback with
      | some uf =>
        setUserRating uf.rating
        setSubmitted true
      | none => pure ()
    | none => pure ()
  catch _ =>
    emit (.consoleError "Error loading chat feedback:")
  finally
    setLoading false

/-- Lines 15-19: the body of the effect. -/
def useEffect (p : Props) (getResult : Outcome (Option Response)) : Js State Unit := do
  if p.isAuthenticated && truthy p.messageId then
    loadFeedback p getResult

/-- Lines 38-66. -/
def handleRatingClick (p : Props) (rating : Rating) (submitResult : Outcome Unit) :
    Js State Unit := do
  let s ← rendered
  if !p.isAuthenticated then
    return
  if s.submitting then
    return
  let newRating := if s.userRating = some rating then none else some rating
  setUserRating newRating
  setSubmitting true
  try
    emit (.submitChatFeedback p.messageId newRating)
    await submitResult
    setSubmitted true
    match p.onFeedbackSubmitted with
    | some cb => invoke cb
    | none => pure ()
  catch _ =>
    emit (.consoleError "Error submitting chat feedback:")
    setUserRating s.userRating
  finally
    setSubmitting false

/-- What the two buttons and the checkmark look like (lines 72-130). -/
structure View where
  upDisabled : Bool
  upActive : Bool
  upBusy : Bool
  downDisabled : Bool
  downActive : Bool
  downBusy : Bool
  checkmark : Bool
  deriving DecidableEq, Repr

/-- Lines 68-130: `null` when unauthenticated. -/
def render (p : Props) (s : State) : Option View :=
  if !p.isAuthenticated then none
  else some
    { upDisabled := s.submitting || s.loading
      upActive := s.userRating == some .thumbs_up
      upBusy := s.submitting && s.userRating == some .thumbs_up
      downDisabled := s.submitting || s.loading
      downActive := s.userRating == some .thumbs_down
      downBusy := s.submitting && s.userRating == some .thumbs_down
      checkmark := s.submitted && s.userRating.isSome }

/-- The rating a settled `getChatMessageFeedback` call reports: `none` when it
failed or carried no `user_feedback`. -/
def reportedRating (result : Outcome (Option Response)) : Option (Option Rating) :=
  match result with
  | .resolved (some resp) =>
    match resp.user_feedback with
    | some uf => some uf.rating
    | none => none
  | _ => none

/-! ### The component as an event-driven machine

Handlers are cut at their `await`: the part before it runs when the event
fires and leaves a pending request; the part after it runs when that request
settles.  Other events may be processed in between. -/

/-- A request that has been issued and has not settled yet, with the closure
values the code after its `await` still uses. -/
inductive Pending where
  | loadFeedback
  | handleRatingClick (userRating : Option Rating) (onFeedbackSubmitted : Option Callback)
  deriving DecidableEq, Repr

/-- A mounted component instance. -/
structure Config where
  props : Props
  state : State
  pending : List Pending
  trace : List Effect
  deriving DecidableEq, Repr

/-- What can happen to a mounted instance. -/
inductive Event where
  | rerender (p : Props)
  | click (rating : Rating)
  | loadSettled (result : Outcome (Option Response))
  | submitSettled (userRating : Option Rating) (onFeedbackSubmitted : Option Callback)
      (result : Outcome Unit)
  deriving DecidableEq, Repr

/-- Lines 22-26: `loadFeedback` up to the `await`. -/
def loadFeedbackStart (c : Config) : Config :=
  if !c.props.isAuthenticated || !truthy c.props.messageId then c
  else
    { c with
      state := { c.state with loading := true }
      trace := c.trace ++ [.getChatMessageFeedback c.props.messageId]
      pending := c.pending ++ [.loadFeedback] }

/-- Lines 26-35: `loadFeedback` from the `await` on. -/
def loadFeedbackResume (c : Config) (result : Outcome (Option Response)) : Config :=
  let c1 : Config :=
    match result with
    | .resolved (some r) =>
      match r.user_feedback with
      | some uf => { c with state := { c.state with userRating := uf.rating, submitted := true } }
      | none => c
    | .resolved none => c
    | .rejected _ => { c with trace := c.trace ++ [.consoleError "Error loading chat feedback:"] }
  { c1 with state := { c1.state with loading := false } }

/-- Lines 15-19: the effect, run after mount and after a render in which
`isAuthenticated` or `messageId` changed. -/
def runEffect (c : Config) : Config :=
  if c.props.isAuthenticated && truthy c.props.messageId then loadFeedbackStart c else c

/-- Lines 38-50: `handleRatingClick` up to the `await`. -/
def handleRatingClickStart (c : Config) (rating : Rating) : Config :=
  if !c.props.isAuthenticated then c
  else if c.state.submitting then c
  else
    let newRating := if c.state.userRating = some rating then none else some rating
    { c with
      state := { c.state with userRating := newRating, submitting := true }
      trace := c.trace ++ [.submitChatFeedback c.props.messageId newRating]
      pending := c.pending ++ [.handleRatingClick c.state.userRating c.props.onFeedbackSubmitted] }

/-- Lines 59-62: the `catch` block of `handleRatingClick`. -/
def handleRatingClickCatch (c : Config) (userRating : Option Rating) : Config :=
  { c with
    state := { c.state with userRating := userRating }
    trace := c.trace ++ [.consoleError "Error submitting chat feedback:"] }

/-- Lines 50-65: `handleRatingClick` from the `await` on. -/
def handleRatingClickResume (c : Config) (userRating : Option Rating)
    (onFeedbackSubmitted : Option Callback) (result : Outcome Unit) : Config :=
  let c1 : Config :=
    match result with
    | .resolved _ =>
      let c2 : Config := { c with state := { c.state with submitted := true } }
      match onFeedbackSubmitted with
      | none => c2
      | some .returns => { c2 with trace := c2.trace ++ [.onFeedbackSubmitted] }
      | some (.throws _) =>
        handleRatingClickCatch { c2 with trace := c2.trace ++ [.onFeedbackSubmitted] } userRating
    | .rejected _ => handleRatingClickCatch c userRating
  { c1 with state := { c1.state with submitting := false } }

/-- A freshly mounted instance, after its first effect. -/
def mount (p : Props) : Config :=
  runEffect { props := p, state := State.initial, pending := [], trace := [] }

/-- One event; `none` when the event cannot happen (no such request pending). -/
def step (c : Config) : Event → Option Config
  | .rerender p =>
    let c1 := { c with props := p }
    if p.isAuthenticated != c.props.isAuthenticated || p.messageId != c.props.messageId then
      some (runEffect c1)
    else some c1
  | .click rating => some (handleRatingClickStart c rating)
  | .loadSettled result =>
    if Pending.loadFeedback ∈ c.pending then
      some (loadFeedbackResume { c with pending := c.pending.erase .loadFeedback } result)
    else none
  | .submitSettled u cb result =>
    if Pending.handleRatingClick u cb ∈ c.pending then
      some (handleRatingClickResume
        { c with pending := c.pending.erase (.handleRatingClick u cb) } u cb result)
    else none

/-- A sequence of events. -/
def run (c : Config) : List Event → Option Config
  | [] => some c
  | e :: es =>
    match step c e with
    | some c1 => run c1 es
    | none => none

/-- Configurations a mounted instance can be in. -/
def Reachable (c : Config) : Prop :=
  ∃ (p : Props) (es : List Event), run (mount p) es = some c

/-- Submit requests that have not settled. -/
def Pending.isSubmit : Pending → Bool
  | .handleRatingClick _ _ => true
  | .loadFeedback => false

/-- Number of submit operations outstanding. -/
def Config.submitsOutstanding (c : Config) : Nat :=
  c.pending.countP Pending.isSubmit

/-! ### Interactions that do not overlap

A session is a run in which every request settles before the next event is
processed.  It is built from the run-to-completion handlers, and keeps a log
of the exchanges with the feedback client. -/

/-- A completed exchange with the feedback client. -/
inductive Exchange where
  | load (result : Outcome (Option Response))
  | submit (rating : Option Rating) (result : Outcome Unit)
  deriving DecidableEq, Repr

/-- The rating the server reported (a load whose response carries
`user_feedback`) or acknowledged (a submit that resolved) in an exchange. -/
def Exchange.rating : Exchange → Option (Option Rating)
  | .load result => reportedRating result
  | .submit rating (.resolved _) => some rating
  | .submit _ (.rejected _) => none

/-- The rating the server last reported or acknowledged, none if it never
did; the log lists the most recent exchange first. -/
def serverRating : List Exchange → Option Rating
  | [] => none
  | x :: xs =>
    match x.rating with
    | some r => r
    | none => serverRating xs

/-- The exchanges behind the client calls of a trace, oldest first. -/
def exchangesOf (trace : List Effect) (getResult : Outcome (Option Response))
    (submitResult : Outcome Unit) : List Exchange :=
  trace.filterMap fun e =>
    match e with
    | .getChatMessageFeedback _ => some (.load getResult)
    | .submitChatFeedback _ rating => some (.submit rating submitResult)
    | _ => none

/-- An interaction together with the way its request settles. -/
inductive Op where
  | rerender (p : Props) (getResult : Outcome (Option Response))
  | click (rating : Rating) (submitResult : Outcome Unit)
  deriving DecidableEq, Repr

/-- A component instance between interactions. -/
structure Session where
  props : Props
  state : State
  exchanges : List Exchange
  deriving DecidableEq, Repr

/-- Mount: the initial state, then the effect with its load settled. -/
def Session.mount (p : Props) (getResult : Outcome (Option Response)) : Session :=
  let w := (runJs (useEffect p getResult) State.initial).2
  { props := p
    state := w.state
    exchanges := (exchangesOf w.trace getResult (.resolved ())).reverse }

/-- One interaction, run to completion. -/
def Session.apply (i : Session) : Op → Session
  | .rerender p getResult =>
    if p.isAuthenticated != i.props.isAuthenticated || p.messageId != i.props.messageId then
      let w := (runJs (useEffect p getResult) i.state).2
      { props := p
        state := w.state
        exchanges := (exchangesOf w.trace getResult (.resolved ())).reverse ++ i.exchanges }
    else { i with props := p }
  | .click rating submitResult =>
    let w := (runJs (handleRatingClick i.props rating submitResult) i.state).2
    { i with
      state := w.state
      exchanges := (exchangesOf w.trace (.resolved none) submitResult).reverse ++ i.exchanges }

/-- The callback an interaction brings with its props is absent or returns. -/
def Op.callbackReturns : Op → Bool
  | .rerender p _ => Feedback.callbackReturns p.onFeedbackSubmitted
  | _ => true

/-- The rating a settled load brings to the server's view, for the machine. -/
def Event.reported : Event → Option (Option Rating)
  | .loadSettled result => reportedRating result
  | _ => none

end ChatFeedbackButton

/-! ## SummaryFeedbackButton.jsx -/

namespace SummaryFeedbackButton

/-- Props and context: `{ referenceType, referenceId, onFeedbackSubmitted }`
and `useAuth()`.  The callback, when one is passed, is represented by what
calling it does. -/
structure Props where
  isAuthenticated : Bool
  referenceType : String
  referenceId : String
  onFeedbackSubmitted : Option Callback
  deriving DecidableEq, Repr

/-- The seven `useState` cells (lines 9-15). -/
structure State where
  userRating : Option Rating
  feedbackText : String
  showTextInput : Bool
  submitting : Bool
  statistics : Option Statistics
  loading : Bool
  submitted : Bool
  deriving DecidableEq, Repr

/-- Initial values of the `useState` cells. -/
def State.initial : State :=
  { userRating := none, feedbackText := "", showTextInput := false, submitting := false,
    statistics := none, loading := false, submitted := false }

/-- The `user_feedback` object of a summary feedback response. -/
structure UserFeedback where
  rating : Option Rating
  feedback_text : Option String
  deriving DecidableEq, Repr

/-- What `getSummaryFeedback` resolves to. -/
structure Response where
  user_feedback : Option UserFeedback
  statistics : Option Statistics
  deriving DecidableEq, Repr

def setUserRating (v : Option Rating) : Js State Unit :=
  setState fun t => { t with userRating := v }

def setFeedbackText (v : String) : Js State Unit :=
  setState fun t => { t with feedbackText := v }

def setShowTextInput (v : Bool) : Js State Unit :=
  setState fun t => { t with showTextInput := v }

def setSubmitting (v : Bool) : Js State Unit :=
  setState fun t => { t with submitting := v }

def setStatistics (v : Option Statistics) : Js State Unit :=
  setState fun t => { t with statistics := v }

def setLoading (v : Bool) : Js State Unit :=
  setState fun t => { t with loading := v }

def setSubmitted (v : Bool) : Js State Unit :=
  setState fun t => { t with submitted := v }

/-- Lines 24-45. -/
def loadFeedback (p : Props) (getResult : Outcome (Option Response)) : Js State Unit := do
  if !p.isAuthenticated then
    return
  setLoading true
  try
    emit (.getSummaryFeedback p.referenceType p.referenceId)
    let response ← await getResult
    match response with
    | some r =>
      match r.user_feedback with
      | some uf =>
        setUserRating uf.rating
        setFeedbackText (orEmpty uf.feedback_text)
        setSubmitted true
      | none => pure ()
      match r.statistics with
      | some st => setStatistics (some st)
      | none => pure ()
    | none => pure ()
  catch _ =>
    emit (.consoleError "Error loading feedback:")
  finally
    setLoading false

/-- Lines 18-22: the body of the effect. -/
def useEffect (p : Props) (getResult : Outcome (Option Response)) : Js State Unit := do
  if p.isAuthenticated && truthy p.referenceType && truthy p.referenceId then
    loadFeedback p getResult

/-- Lines 47-82.  `reloadResult` settles the `getSummaryFeedback` call of the
re-fetch on line 73. -/
def handleRatingClick (p : Props) (rating : Rating) (submitResult : Outcome Unit)
    (reloadResult : Outcome (Option Response)) : Js State Unit := do
  let s ← rendered
  if !p.isAuthenticated then
    emit (.alert "Please login to provide feedback")
    return
  if s.submitting then
    return
  let newRating := if s.userRating = some rating then none else some rating
  setUserRating newRating
  setSubmitting true
  try
    emit (.submitSummaryFeedback p.referenceType p.referenceId newRating (orNull s.feedbackText))
    await submitResult
    setSubmitted true
    match p.onFeedbackSubmitted with
    | some cb => invoke cb
    | none => pure ()
    loadFeedback p reloadResult
  catch _ =>
    emit (.consoleError "Error submitting feedback:")
    setUserRating s.userRating
    emit (.alert "Failed to submit feedback. Please try again.")
  finally
    setSubmitting false

/-- Lines 84-115.  `reloadResult` settles the re-fetch on line 108. -/
def handleTextSubmit (p : Props) (submitResult : Outcome Unit)
    (reloadResult : Outcome (Option Response)) : Js State Unit := do
  let s ← rendered
  if !p.isAuthenticated then
    emit (.alert "Please login to provide feedback")
    return
  if s.submitting then
    return
  setSubmitting true
  try
    emit (.submitSummaryFeedback p.referenceType p.referenceId s.userRating
      (orNull s.feedbackText))
    await submitResult
    setSubmitted true
    setShowTextInput false
    match p.onFeedbackSubmitted with
    | some cb => invoke cb
    | none => pure ()
    loadFeedback p reloadResult
  catch _ =>
    emit (.consoleError "Error submitting text feedback:")
    emit (.alert "Failed to submit feedback. Please try again.")
  finally
    setSubmitting false

/-- Line 205: the "Add Comment" button. -/
def onAddCommentClick : Js State Unit := do
  let s ← rendered
  setShowTextInput (!s.showTextInput)

/-- Line 232: the textarea's `onChange`, with the value the browser reports. -/
def onTextChange (value : String) : Js State Unit :=
  setFeedbackText value

/-- Lines 248-251: the "Cancel" button. -/
def onCancelClick : Js State Unit := do
  setShowTextInput false
  setFeedbackText ""

/-- Line 235: the textarea's `maxLength`. -/
def maxLength : Nat := 2000

/-- The comment panel (lines 222-272). -/
structure TextPanel where
  value : String
  maxLength : Nat
  counter : String
  submitDisabled : Bool
  submitLabel : String
  deriving DecidableEq, Repr

/-- What the component shows (lines 121-290). -/
structure View where
  statisticsLine : Option String
  upDisabled : Bool
  upActive : Bool
  upBusy : Bool
  downDisabled : Bool
  downActive : Bool
  downBusy : Bool
  textPanel : Option TextPanel
  successMessage : Bool
  deriving DecidableEq, Repr

/-- Lines 127-131. -/
def statisticsLine (statistics : Option Statistics) : Option String :=
  match statistics with
  | some st =>
    if st.total_feedback > 0 then
      some (toString st.thumbs_up_count ++ " of " ++ toString st.total_feedback
        ++ " found this helpful")
    else none
  | none => none

/-- Lines 117-290: `null` when unauthenticated. -/
def render (p : Props) (s : State) : Option View :=
  if !p.isAuthenticated then none
  else some
    { statisticsLine := statisticsLine s.statistics
      upDisabled := s.submitting || s.loading
      upActive := s.userRating == some .thumbs_up
      upBusy := s.submitting && s.userRating == some .thumbs_up
      downDisabled := s.submitting || s.loading
      downActive := s.userRating == some .thumbs_down
      downBusy := s.submitting && s.userRating == some .thumbs_down
      textPanel :=
        if s.showTextInput then
          some
            { value := s.feedbackText
              maxLength := maxLength
              counter := toString s.feedbackText.length ++ "/2000 characters"
              submitDisabled := s.submitting
              submitLabel := if s.submitting then "Submitting..." else "Submit" }
        else none
      successMessage := s.submitted && !s.showTextInput }

/-- The rating a settled `getSummaryFeedback` call reports: `none` when it
failed or carried no `user_feedback`. -/
def reportedRating (result : Outcome (Option Response)) : Option (Option Rating) :=
  match result with
  | .resolved (some resp) =>
    match resp.user_feedback with
    | some uf => some uf.rating
    | none => none
  | _ => none

/-- The settled `getSummaryFeedback` call does not contradict rating `r`: it
failed, or carried no `user_feedback`, or reported `r`. -/
def confirms (result : Outcome (Option Response)) (r : Option Rating) : Bool :=
  match result with
  | .resolved (some resp) =>
    match resp.user_feedback with
    | some uf => uf.rating == r
    | none => true
  | _ => true

/-! ### The component as an event-driven machine -/

/-- A request that has been issued and has not settled yet, with the closure
values the code after its `await` still uses.  `reloadFeedback` is the
`getSummaryFeedback` call of a `loadFeedback` awaited inside a submit handler
(lines 73 and 108): when it settles, that handler's `finally` runs. -/
inductive Pending where
  | loadFeedback
  | handleRatingClick (p : Props) (userRating : Option Rating)
  | handleTextSubmit (p : Props)
  | reloadFeedback
  deriving DecidableEq, Repr

/-- A mounted component instance. -/
structure Config where
  props : Props
  state : State
  pending : List Pending
  trace : List Effect
  deriving DecidableEq, Repr

/-- What can happen to a mounted instance. -/
inductive Event where
  | rerender (p : Props)
  | ratingClick (rating : Rating)
  | textSubmitClick
  | addCommentClick
  | cancelClick
  | textChange (value : String)
  | loadSettled (result : Outcome (Option Response))
  | ratingSubmitSettled (p : Props) (userRating : Option Rating) (result : Outcome Unit)
  | textSubmitSettled (p : Props) (result : Outcome Unit)
  | reloadSettled (result : Outcome (Option Response))
  deriving DecidableEq, Repr

/-- Lines 25-29: `loadFeedback` of the render with props `p`, up to the
`await`; the request is filed under `tag`. -/
def loadFeedbackStart (c : Config) (p : Props) (tag : Pending) : Config :=
  if !p.isAuthenticated then c
  else
    { c with
      state := { c.state with loading := true }
      trace := c.trace ++ [.getSummaryFeedback p.referenceType p.referenceId]
      pending := c.pending ++ [tag] }

/-- Lines 29-44: `loadFeedback` from the `await` on. -/
def loadFeedbackResume (c : Config) (result : Outcome (Option Response)) : Config :=
  let c1 : Config :=
    match result with
    | .resolved (some r) =>
      let c2 : Config :=
        match r.user_feedback with
        | some uf =>
          { c with
            state := { c.state with
              userRating := uf.rating
              feedbackText := orEmpty uf.feedback_text
              submitted := true } }
        | none => c
      match r.statistics with
      | some st => { c2 with state := { c2.state with statistics := some st } }
      | none => c2
    | .resolved none => c
    | .rejected _ => { c with trace := c.trace ++ [.consoleError "Error loading feedback:"] }
  { c1 with state := { c1.state with loading := false } }

/-- Lines 18-22: the effect, run after mount and after a render in which one
of its dependencies changed. -/
def runEffect (c : Config) : Config :=
  if c.props.isAuthenticated && truthy c.props.referenceType && truthy c.props.referenceId then
    loadFeedbackStart c c.props .loadFeedback
  else c

/-- Lines 79-81 and 112-114: the `finally` block of both submit handlers. -/
def submitFinally (c : Config) : Config :=
  { c with state := { c.state with submitting := false } }

/-- Lines 74-78: the `catch` block of `handleRatingClick`. -/
def handleRatingClickCatch (c : Config) (userRating : Option Rating) : Config :=
  { c with
    state := { c.state with userRating := userRating }
    trace := c.trace ++ [.consoleError "Error submitting feedback:",
      .alert "Failed to submit feedback. Please try again."] }

/-- Lines 109-111: the `catch` block of `handleTextSubmit`. -/
def handleTextSubmitCatch (c : Config) : Config :=
  { c with
    trace := c.trace ++ [.consoleError "Error submitting text feedback:",
      .alert "Failed to submit feedback. Please try again."] }

/-- Lines 73 and 108: `await loadFeedback()` inside a submit handler; when
`loadFeedback` returns on line 25 the handler goes on to its `finally`. -/
def awaitReload (c : Config) (p : Props) : Config :=
  if p.isAuthenticated then loadFeedbackStart c p .reloadFeedback
  else submitFinally c

/-- Lines 68-73 and 103-108: the callback, then `await loadFeedback()`.  When
the callback throws, the handler's `catch` block `onCatch` runs and then its
`finally`. -/
def afterSubmit (c : Config) (p : Props) (onCatch : Config → Config) : Config :=
  match p.onFeedbackSubmitted with
  | none => awaitReload c p
  | some .returns => awaitReload { c with trace := c.trace ++ [.onFeedbackSubmitted] } p
  | some (.throws _) =>
    submitFinally (onCatch { c with trace := c.trace ++ [.onFeedbackSubmitted] })

/-- Lines 47-60: `handleRatingClick` up to the `await`. -/
def handleRatingClickStart (c : Config) (rating : Rating) : Config :=
  if !c.props.isAuthenticated then
    { c with trace := c.trace ++ [.alert "Please login to provide feedback"] }
  else if c.state.submitting then c
  else
    let newRating := if c.state.userRating = some rating then none else some rating
    { c with
      state := { c.state with userRating := newRating, submitting := true }
      trace := c.trace ++ [.submitSummaryFeedback c.props.referenceType c.props.referenceId
        newRating (orNull c.state.feedbackText)]
      pending := c.pending ++ [.handleRatingClick c.props c.state.userRating] }

/-- Lines 60-81: `handleRatingClick` from the first `await` to the second, or
to its end. -/
def handleRatingClickResume (c : Config) (p : Props) (userRating : Option Rating)
    (result : Outcome Unit) : Config :=
  match result with
  | .resolved _ =>
    afterSubmit { c with state := { c.state with submitted := true } } p
      (fun c1 => handleRatingClickCatch c1 userRating)
  | .rejected _ => submitFinally (handleRatingClickCatch c userRating)

/-- Lines 84-94: `handleTextSubmit` up to the `await`. -/
def handleTextSubmitStart (c : Config) : Config :=
  if !c.props.isAuthenticated then
    { c with trace := c.trace ++ [.alert "Please login to provide feedback"] }
  else if c.state.submitting then c
  else
    { c with
      state := { c.state with submitting := true }
      trace := c.trace ++ [.submitSummaryFeedback c.props.referenceType c.props.referenceId
        c.state.userRating (orNull c.state.feedbackText)]
      pending := c.pending ++ [.handleTextSubmit c.props] }

/-- Lines 94-114: `handleTextSubmit` from the first `await` to the second, or
to its end. -/
def handleTextSubmitResume (c : Config) (p : Props) (result : Outcome Unit) : Config :=
  match result with
  | .resolved _ =>
    afterSubmit { c with state := { c.state with submitted := true, showTextInput := false } } p
      handleTextSubmitCatch
  | .rejected _ => submitFinally (handleTextSubmitCatch c)

/-- The `feedback_text` a settled `getSummaryFeedback` call brings, if it
brings one, has at most `maxLength` characters. -/
def textWithinLimit (result : Outcome (Option Response)) : Bool :=
  match result with
  | .resolved (some resp) =>
    match resp.user_feedback with
    | some uf => decide ((orEmpty uf.feedback_text).length ≤ maxLength)
    | none => true
  | _ => true

/-- The event brings no text longer than `maxLength`: neither from the server
(a settled load) nor from the textarea (the value its `onChange` reports,
which the browser holds to the `maxLength` attribute on user edits). -/
def Event.textWithinLimit : Event → Bool
  | .loadSettled result => SummaryFeedbackButton.textWithinLimit result
  | .reloadSettled result => SummaryFeedbackButton.textWithinLimit result
  | .textChange value => decide (value.length ≤ maxLength)
  | _ => true

/-- A freshly mounted instance, after its first effect. -/
def mount (p : Props) : Config :=
  runEffect { props := p, state := State.initial, pending := [], trace := [] }

/-- One event; `none` when the event cannot happen (no such request pending). -/
def step (c : Config) : Event → Option Config
  | .rerender p =>
    let c1 := { c with props := p }
    if p.isAuthenticated != c.props.isAuthenticated || p.referenceType != c.props.referenceType
        || p.referenceId != c.props.referenceId then
      some (runEffect c1)
    else some c1
  | .ratingClick rating => some (handleRatingClickStart c rating)
  | .textSubmitClick => some (handleTextSubmitStart c)
  | .addCommentClick =>
    some { c with state := { c.state with showTextInput := !c.state.showTextInput } }
  | .cancelClick =>
    some { c with state := { c.state with showTextInput := false, feedbackText := "" } }
  | .textChange value => some { c with state := { c.state with feedbackText := value } }
  | .loadSettled result =>
    if Pending.loadFeedback ∈ c.pending then
      some (loadFeedbackResume { c with pending := c.pending.erase .loadFeedback } result)
    else none
  | .ratingSubmitSettled p u result =>
    if Pending.handleRatingClick p u ∈ c.pending then
      some (handleRatingClickResume
        { c with pending := c.pending.erase (.handleRatingClick p u) } p u result)
    else none
  | .textSubmitSettled p result =>
    if Pending.handleTextSubmit p ∈ c.pending then
      some (handleTextSubmitResume
        { c with pending := c.pending.erase (.handleTextSubmit p) } p result)
    else none
  | .reloadSettled result =>
    if Pending.reloadFeedback ∈ c.pending then
      some (submitFinally
        (loadFeedbackResume { c with pending := c.pending.erase .reloadFeedback } result))
    else none

/-- A sequence of events. -/
def run (c : Config) : List Event → Option Config
  | [] => some c
  | e :: es =>
    match step c e with
    | some c1 => run c1 es
    | none => none

/-- Configurations a mounted instance can be in. -/
def Reachable (c : Config) : Prop :=
  ∃ (p : Props) (es : List Event), run (mount p) es = some c

/-- Submit requests that have not settled. -/
def Pending.isSubmit : Pending → Bool
  | .handleRatingClick _ _ => true
  | .handleTextSubmit _ => true
  | _ => false

/-- Re-fetches awaited by a submit handler that have not settled. -/
def Pending.isReload : Pending → Bool
  | .reloadFeedback => true
  | _ => false

/-- Number of submit operations outstanding. -/
def Config.submitsOutstanding (c : Config) : Nat :=
  c.pending.countP Pending.isSubmit

/-- Number of re-fetches outstanding that a submit handler is waiting for. -/
def Config.reloadsOutstanding (c : Config) : Nat :=
  c.pending.countP Pending.isReload

/-- Summary widget: the text in state and in every submit call issued so far
has at most `maxLength` characters. -/
def TextBounded (c : Config) : Prop :=
  c.state.feedbackText.length ≤ maxLength
  ∧ ∀ rt rid rating text, Effect.submitSummaryFeedback rt rid rating (some text) ∈ c.trace →
      text.length ≤ maxLength

/-! ### Interactions that do not overlap -/

/-- A completed exchange with the feedback client. -/
inductive Exchange where
  | load (result : Outcome (Option Response))
  | submit (rating : Option Rating) (result : Outcome Unit)
  deriving DecidableEq, Repr

/-- The rating the server reported (a load whose response carries
`user_feedback`) or acknowledged (a submit that resolved) in an exchange. -/
def Exchange.rating : Exchange → Option (Option Rating)
  | .load result => reportedRating result
  | .submit rating (.resolved _) => some rating
  | .submit _ (.rejected _) => none

/-- The rating the server last reported or acknowledged, none if it never
did; the log lists the most recent exchange first. -/
def serverRating : List Exchange → Option Rating
  | [] => none
  | x :: xs =>
    match x.rating with
    | some r => r
    | none => serverRating xs

/-- The exchanges behind the client calls of a trace, oldest first. -/
def exchangesOf (trace : List Effect) (getResult : Outcome (Option Response))
    (submitResult : Outcome Unit) : List Exchange :=
  trace.filterMap fun e =>
    match e with
    | .getSummaryFeedback _ _ => some (.load getResult)
    | .submitSummaryFeedback _ _ rating _ => some (.submit rating submitResult)
    | _ => none

/-- An interaction together with the way its requests settle. -/
inductive Op where
  | rerender (p : Props) (getResult : Outcome (Option Response))
  | ratingClick (rating : Rating) (submitResult : Outcome Unit)
      (reloadResult : Outcome (Option Response))
  | textSubmitClick (submitResult : Outcome Unit) (reloadResult : Outcome (Option Response))
  | addCommentClick
  | cancelClick
  | textChange (value : String)
  deriving DecidableEq, Repr

/-- A component instance between interactions. -/
structure Session where
  props : Props
  state : State
  exchanges : List Exchange
  deriving DecidableEq, Repr

/-- Mount: the initial state, then the effect with its load settled. -/
def Session.mount (p : Props) (getResult : Outcome (Option Response)) : Session :=
  let w := (runJs (useEffect p getResult) State.initial).2
  { props := p
    state := w.state
    exchanges := (exchangesOf w.trace getResult (.resolved ())).reverse }

/-- One interaction, run to completion. -/
def Session.apply (i : Session) : Op → Session
  | .rerender p getResult =>
    if p.isAuthenticated != i.props.isAuthenticated || p.referenceType != i.props.referenceType
        || p.referenceId != i.props.referenceId then
      let w := (runJs (useEffect p getResult) i.state).2
      { props := p
        state := w.state
        exchanges := (exchangesOf w.trace getResult (.resolved ())).reverse ++ i.exchanges }
    else { i with props := p }
  | .ratingClick rating submitResult reloadResult =>
    let w := (runJs (handleRatingClick i.props rating submitResult reloadResult) i.state).2
    { i with
      state := w.state
      exchanges := (exchangesOf w.trace reloadResult submitResult).reverse ++ i.exchanges }
  | .textSubmitClick submitResult reloadResult =>
    let w := (runJs (handleTextSubmit i.props submitResult reloadResult) i.state).2
    { i with
      state := w.state
      exchanges := (exchangesOf w.trace reloadResult submitResult).reverse ++ i.exchanges }
  | .addCommentClick => { i with state := (runJs onAddCommentClick i.state).2.state }
  | .cancelClick => { i with state := (runJs onCancelClick i.state).2.state }
  | .textChange value => { i with state := (runJs (onTextChange value) i.state).2.state }

/-- The callback an interaction brings with its props is absent or returns. -/
def Op.callbackReturns : Op → Bool
  | .rerender p _ => Feedback.callbackReturns p.onFeedbackSubmitted
  | _ => true

end SummaryFeedbackButton

/-! ## Run-to-completion behaviour of the handlers -/

/-- A resolved rating click in the message widget, the callback absent or
returning. -/
theorem chat_click_resolved (p : ChatFeedbackButton.Props)
    (s : ChatFeedbackButton.State) (r : Rating)
    (hauth : p.isAuthenticated = true) (hsub : s.submitting = false)
    (hcb : callbackReturns p.onFeedbackSubmitted = true) :
    runJs (ChatFeedbackButton.handleRatingClick p r (Outcome.resolved ())) s
      = (Except.ok (),
          { state := { s with
              userRating := if s.userRating = some r then none else some r
              submitted := true
              submitting := false }
            trace := Effect.submitChatFeedback p.messageId
                (if s.userRating = some r then none else some r)
              :: (if p.onFeedbackSubmitted.isSome then [Effect.onFeedbackSubmitted] else []) }) := by
  obtain ⟨a, m, cb⟩ := p
  obtain ⟨u, sb, l, sd⟩ := s
  subst hauth
  subst hsub
  rcases cb with _ | _ | e
  · rfl
  · rfl
  · cases hcb

/-- A resolved rating click in the message widget whose callback throws: the
`catch` block restores the rating. -/
theorem chat_click_callback_throws (p : ChatFeedbackButton.Props)
    (s : ChatFeedbackButton.State) (r : Rating) (e : String)
    (hauth : p.isAuthenticated = true) (hsub : s.submitting = false)
    (hcb : p.onFeedbackSubmitted = some (Callback.throws e)) :
    runJs (ChatFeedbackButton.handleRatingClick p r (Outcome.resolved ())) s
      = (Except.ok (),
          { state := { s with submitted := true }
            trace := [Effect.submitChatFeedback p.messageId
                (if s.userRating = some r then none else some r),
              Effect.onFeedbackSubmitted,
              Effect.consoleError "Error submitting chat feedback:"] }) := by
  obtain ⟨a, m, cb⟩ := p
  obtain ⟨u, sb, l, sd⟩ := s
  subst hauth
  subst hsub
  simp only [] at hcb
  subst hcb
  rfl

/-- A rejected rating click in the message widget. -/
theorem chat_click_rejected (p : ChatFeedbackButton.Props)
    (s : ChatFeedbackButton.State) (r : Rating) (err : String)
    (hauth : p.isAuthenticated = true) (hsub : s.submitting = false) :
    runJs (ChatFeedbackButton.handleRatingClick p r (Outcome.rejected err)) s
      = (Except.ok (),
          { state := s
            trace := [Effect.submitChatFeedback p.messageId
                (if s.userRating = some r then none else some r),
              Effect.consoleError "Error submitting chat feedback:"] }) := by
  obtain ⟨a, m, cb⟩ := p
  obtain ⟨u, sb, l, sd⟩ := s
  subst hauth
  subst hsub
  rfl

/-- A rating click in the message widget that the guards turn away. -/
theorem chat_click_ignored (p : ChatFeedbackButton.Props)
    (s : ChatFeedbackButton.State) (r : Rating) (o : Outcome Unit)
    (h : p.isAuthenticated = false ∨ s.submitting = true) :
    runJs (ChatFeedbackButton.handleRatingClick p r o) s
      = (Except.ok (), { state := s, trace := [] }) := by
  obtain ⟨a, m, cb⟩ := p
  obtain ⟨u, sb, l, sd⟩ := s
  rcases h with h | h
  · subst h
    rfl
  · subst h
    cases a <;> rfl

/-- A resolved rating click in the summary widget, the callback absent or
returning, re-fetch included. -/
theorem summary_click_resolved (p : SummaryFeedbackButton.Props)
    (s : SummaryFeedbackButton.State) (r : Rating)
    (reload : Outcome (Option SummaryFeedbackButton.Response))
    (hauth : p.isAuthenticated = true) (hsub : s.submitting = false)
    (hcb : callbackReturns p.onFeedbackSubmitted = true) :
    (runJs (SummaryFeedbackButton.handleRatingClick p r (Outcome.resolved ()) reload) s).1
        = Except.ok ()
    ∧ (runJs (SummaryFeedbackButton.handleRatingClick p r (Outcome.resolved ()) reload)
        s).2.state.userRating
        = (match SummaryFeedbackButton.reportedRating reload with
          | some reported => reported
          | none => if s.userRating = some r then none else some r)
    ∧ (runJs (SummaryFeedbackButton.handleRatingClick p r (Outcome.resolved ()) reload)
        s).2.state.submitting = false
    ∧ (runJs (SummaryFeedbackButton.handleRatingClick p r (Outcome.resolved ()) reload)
        s).2.state.submitted = true
    ∧ (runJs (SummaryFeedbackButton.handleRatingClick p r (Outcome.resolved ()) reload)
        s).2.trace.filter Effect.isSubmitCall
        = [Effect.submitSummaryFeedback p.referenceType p.referenceId
            (if s.userRating = some r then none else some r)
            (if s.feedbackText = "" then none else some s.feedbackText)]
    ∧ SummaryFeedbackButton.exchangesOf
        (runJs (SummaryFeedbackButton.handleRatingClick p r (Outcome.resolved ()) reload)
          s).2.trace reload (Outcome.resolved ())
        = [SummaryFeedbackButton.Exchange.submit
            (if s.userRating = some r then none else some r) (Outcome.resolved ()),
          SummaryFeedbackButton.Exchange.load reload] := by
  obtain ⟨a, rt, rid, cb⟩ := p
  obtain ⟨u, ft, sh, sb, stt, l, sd⟩ := s
  subst hauth
  subst hsub
  rcases cb with _ | _ | e
  · rcases reload with ⟨_ | ⟨_ | uf, _ | st⟩⟩ | e <;> exact ⟨rfl, rfl, rfl, rfl, rfl, rfl⟩
  · rcases reload with ⟨_ | ⟨_ | uf, _ | st⟩⟩ | e <;> exact ⟨rfl, rfl, rfl, rfl, rfl, rfl⟩
  · cases hcb

/-- A resolved rating click in the summary widget whose callback throws: the
re-fetch is skipped and the `catch` block restores the rating. -/
theorem summary_click_callback_throws (p : SummaryFeedbackButton.Props)
    (s : SummaryFeedbackButton.State) (r : Rating) (e : String)
    (reload : Outcome (Option SummaryFeedbackButton.Response))
    (hauth : p.isAuthenticated = true) (hsub : s.submitting = false)
    (hcb : p.onFeedbackSubmitted = some (Callback.throws e)) :
    runJs (SummaryFeedbackButton.handleRatingClick p r (Outcome.resolved ()) reload) s
      = (Except.ok (),
          { state := { s with submitted := true }
            trace := [Effect.submitSummaryFeedback p.referenceType p.referenceId
                (if s.userRating = some r then none else some r)
                (if s.feedbackText = "" then none else some s.feedbackText),
              Effect.onFeedbackSubmitted,
              Effect.consoleError "Error submitting feedback:",
              Effect.alert "Failed to submit feedback. Please try again."] }) := by
  obtain ⟨a, rt, rid, cb⟩ := p
  obtain ⟨u, ft, sh, sb, stt, l, sd⟩ := s
  subst hauth
  subst hsub
  simp only [] at hcb
  subst hcb
  rfl

/-- A rejected rating click in the summary widget. -/
theorem summary_click_rejected (p : SummaryFeedbackButton.Props)
    (s : SummaryFeedbackButton.State) (r : Rating) (err : String)
    (reload : Outcome (Option SummaryFeedbackButton.Response))
    (hauth : p.isAuthenticated = true) (hsub : s.submitting = false) :
    runJs (SummaryFeedbackButton.handleRatingClick p r (Outcome.rejected err) reload) s
      = (Except.ok (),
          { state := s
            trace := [Effect.submitSummaryFeedback p.referenceType p.referenceId
                (if s.userRating = some r then none else some r)
                (if s.feedbackText = "" then none else some s.feedbackText),
              Effect.consoleError "Error submitting feedback:",
              Effect.alert "Failed to submit feedback. Please try again."] }) := by
  obtain ⟨a, rt, rid, cb⟩ := p
  obtain ⟨u, ft, sh, sb, stt, l, sd⟩ := s
  subst hauth
  subst hsub
  rfl

/-- Only submit calls carry a submitted rating. -/
theorem submittedRating_filter (l : List Effect) :
    l.filterMap Effect.submittedRating
      = (l.filter Effect.isSubmitCall).filterMap Effect.submittedRating := by
  induction l with
  | nil => rfl
  | cons e t ih =>
    cases e <;> simp [List.filter_cons, Effect.isSubmitCall, Effect.submittedRating, ih]

/-! ## Invariants of the event-driven machines -/

/-- Erasing a listed element lowers a count by that element's contribution. -/
theorem countP_erase_add {α : Type} [DecidableEq α] (q : α → Bool) (a : α) (l : List α)
    (h : a ∈ l) : (l.erase a).countP q + (if q a then 1 else 0) = l.countP q := by
  induction l with
  | nil => cases h
  | cons b t ih =>
    by_cases hb : b = a
    · subst hb
      simp [List.countP_cons]
    · have ha : a ∈ t := by
        rcases List.mem_cons.mp h with h1 | h1
        · exact absurd h1.symm hb
        · exact h1
      rw [List.erase_cons_tail (by simpa using hb)]
      simp only [List.countP_cons]
      have := ih ha
      omega

/-- An invariant kept by every step holds along every run. -/
theorem chat_run_induction (I : ChatFeedbackButton.Config → Prop)
    (hstep : ∀ c e c2, I c → ChatFeedbackButton.step c e = some c2 → I c2)
    (es : List ChatFeedbackButton.Event) :
    ∀ c c2, I c → ChatFeedbackButton.run c es = some c2 → I c2 := by
  induction es with
  | nil =>
    intro c c2 hc hr
    simp only [ChatFeedbackButton.run, Option.some.injEq] at hr
    exact hr ▸ hc
  | cons e t ih =>
    intro c c2 hc hr
    simp only [ChatFeedbackButton.run] at hr
    cases hs : ChatFeedbackButton.step c e with
    | none => simp [hs] at hr
    | some c1 =>
      simp only [hs] at hr
      exact ih c1 c2 (hstep c e c1 hc hs) hr

/-- An invariant kept by every step holds along every run. -/
theorem summary_run_induction (I : SummaryFeedbackButton.Config → Prop)
    (hstep : ∀ c e c2, I c → SummaryFeedbackButton.step c e = some c2 → I c2)
    (es : List SummaryFeedbackButton.Event) :
    ∀ c c2, I c → SummaryFeedbackButton.run c es = some c2 → I c2 := by
  induction es with
  | nil =>
    intro c c2 hc hr
    simp only [SummaryFeedbackButton.run, Option.some.injEq] at hr
    exact hr ▸ hc
  | cons e t ih =>
    intro c c2 hc hr
    simp only [SummaryFeedbackButton.run] at hr
    cases hs : SummaryFeedbackButton.step c e with
    | none => simp [hs] at hr
    | some c1 =>
      simp only [hs] at hr
      exact ih c1 c2 (hstep c e c1 hc hs) hr

/-- Message widget: `submitting` counts the outstanding submits; one step. -/
theorem chat_step_submitting (c c2 : ChatFeedbackButton.Config)
    (e : ChatFeedbackButton.Event)
    (h : c.submitsOutstanding = if c.state.submitting then 1 else 0)
    (hs : ChatFeedbackButton.step c e = some c2) :
    c2.submitsOutstanding = if c2.state.submitting then 1 else 0 := by
  obtain ⟨p, st, pd, tr⟩ := c
  have e1 : ChatFeedbackButton.Pending.isSubmit .loadFeedback = false := rfl
  have e2 : ∀ u cb, ChatFeedbackButton.Pending.isSubmit (.handleRatingClick u cb) = true :=
    fun _ _ => rfl
  simp only [ChatFeedbackButton.Config.submitsOutstanding] at h ⊢
  cases e with
  | rerender p2 =>
    simp only [ChatFeedbackButton.step, ChatFeedbackButton.runEffect,
      ChatFeedbackButton.loadFeedbackStart] at hs
    split at hs <;> cases hs
    · split
      · split
        · exact h
        · simpa [e1, -List.countP_eq_zero] using h
      · exact h
    · exact h
  | click r =>
    simp only [ChatFeedbackButton.step, ChatFeedbackButton.handleRatingClickStart] at hs
    cases hs
    by_cases ha : p.isAuthenticated = true <;> by_cases hb : st.submitting = true <;>
      simp [ha, hb, e2, -List.countP_eq_zero] at h ⊢ <;> simp [h, hb, -List.countP_eq_zero]
  | loadSettled o =>
    simp only [ChatFeedbackButton.step] at hs
    split at hs
    · cases hs
      rename_i hm
      have := countP_erase_add ChatFeedbackButton.Pending.isSubmit _ _ hm
      simp only [e1] at this
      simp only [ChatFeedbackButton.loadFeedbackResume]
      rcases o with ⟨_ | ⟨_ | uf⟩⟩ | er <;> simp [-List.countP_eq_zero] <;>
        simp [-List.countP_eq_zero] at this <;> rw [this] <;> exact h
    · cases hs
  | submitSettled u cb o =>
    simp only [ChatFeedbackButton.step] at hs
    split at hs
    · cases hs
      rename_i hm
      have := countP_erase_add ChatFeedbackButton.Pending.isSubmit _ _ hm
      simp only [e2] at this
      simp only [ChatFeedbackButton.handleRatingClickResume]
      have h3 : List.countP ChatFeedbackButton.Pending.isSubmit
          (pd.erase (ChatFeedbackButton.Pending.handleRatingClick u cb)) = 0 := by
        split at h <;> simp at this <;> omega
      rcases o with v | er
      · rcases cb with _ | _ | e <;>
          simp [h3, ChatFeedbackButton.handleRatingClickCatch, -List.countP_eq_zero]
      · simp [h3, ChatFeedbackButton.handleRatingClickCatch, -List.countP_eq_zero]
    · cases hs

/-- Message widget: `submitting` counts the outstanding submits, after mount. -/
theorem chat_mount_submitting (p : ChatFeedbackButton.Props) :
    (ChatFeedbackButton.mount p).submitsOutstanding
      = if (ChatFeedbackButton.mount p).state.submitting then 1 else 0 := by
  simp only [ChatFeedbackButton.mount, ChatFeedbackButton.runEffect,
    ChatFeedbackButton.loadFeedbackStart, ChatFeedbackButton.Config.submitsOutstanding]
  split
  · split
    · rfl
    · rfl
  · rfl

/-- Summary widget: requests a submit handler is waiting for. -/
theorem summary_step_submitting (c c2 : SummaryFeedbackButton.Config)
    (e : SummaryFeedbackButton.Event)
    (h : c.submitsOutstanding + c.reloadsOutstanding = if c.state.submitting then 1 else 0)
    (hs : SummaryFeedbackButton.step c e = some c2) :
    c2.submitsOutstanding + c2.reloadsOutstanding = if c2.state.submitting then 1 else 0 := by
  obtain ⟨p, st, pd, tr⟩ := c
  have e1 : SummaryFeedbackButton.Pending.isSubmit .loadFeedback = false := rfl
  have e2 : ∀ q u, SummaryFeedbackButton.Pending.isSubmit (.handleRatingClick q u) = true :=
    fun _ _ => rfl
  have e3 : ∀ q, SummaryFeedbackButton.Pending.isSubmit (.handleTextSubmit q) = true :=
    fun _ => rfl
  have e4 : SummaryFeedbackButton.Pending.isSubmit .reloadFeedback = false := rfl
  have f1 : SummaryFeedbackButton.Pending.isReload .loadFeedback = false := rfl
  have f2 : ∀ q u, SummaryFeedbackButton.Pending.isReload (.handleRatingClick q u) = false :=
    fun _ _ => rfl
  have f3 : ∀ q, SummaryFeedbackButton.Pending.isReload (.handleTextSubmit q) = false :=
    fun _ => rfl
  have f4 : SummaryFeedbackButton.Pending.isReload .reloadFeedback = true := rfl
  simp only [SummaryFeedbackButton.Config.submitsOutstanding,
    SummaryFeedbackButton.Config.reloadsOutstanding] at h ⊢
  cases e with
  | rerender p2 =>
    simp only [SummaryFeedbackButton.step, SummaryFeedbackButton.runEffect,
      SummaryFeedbackButton.loadFeedbackStart] at hs
    split at hs <;> cases hs
    · split
      · split
        · exact h
        · simpa [e1, f1, -List.countP_eq_zero] using h
      · exact h
    · exact h
  | ratingClick r =>
    simp only [SummaryFeedbackButton.step, SummaryFeedbackButton.handleRatingClickStart] at hs
    cases hs
    by_cases ha : p.isAuthenticated = true <;> by_cases hb : st.submitting = true <;>
      simp [ha, hb, e2, f2, -List.countP_eq_zero] at h ⊢ <;>
      simp [h, hb, -List.countP_eq_zero]
  | textSubmitClick =>
    simp only [SummaryFeedbackButton.step, SummaryFeedbackButton.handleTextSubmitStart] at hs
    cases hs
    by_cases ha : p.isAuthenticated = true <;> by_cases hb : st.submitting = true <;>
      simp [ha, hb, e3, f3, -List.countP_eq_zero] at h ⊢ <;>
      simp [h, hb, -List.countP_eq_zero]
  | addCommentClick =>
    simp only [SummaryFeedbackButton.step] at hs
    cases hs
    exact h
  | cancelClick =>
    simp only [SummaryFeedbackButton.step] at hs
    cases hs
    exact h
  | textChange v =>
    simp only [SummaryFeedbackButton.step] at hs
    cases hs
    exact h
  | loadSettled o =>
    simp only [SummaryFeedbackButton.step] at hs
    split at hs
    · cases hs
      rename_i hm
      have t1 := countP_erase_add SummaryFeedbackButton.Pending.isSubmit _ _ hm
      have t2 := countP_erase_add SummaryFeedbackButton.Pending.isReload _ _ hm
      simp only [e1, f1] at t1 t2
      simp [-List.countP_eq_zero] at t1 t2
      simp only [SummaryFeedbackButton.loadFeedbackResume]
      rcases o with ⟨_ | ⟨_ | uf, _ | sx⟩⟩ | er <;> simp [-List.countP_eq_zero] <;>
        rw [t1, t2] <;> exact h
    · cases hs
  | ratingSubmitSettled q u o =>
    simp only [SummaryFeedbackButton.step] at hs
    split at hs
    · cases hs
      rename_i hm
      have t1 := countP_erase_add SummaryFeedbackButton.Pending.isSubmit _ _ hm
      have t2 := countP_erase_add SummaryFeedbackButton.Pending.isReload _ _ hm
      simp only [e2, f2] at t1 t2
      simp [-List.countP_eq_zero] at t1 t2
      have hsb : st.submitting = true := by
        by_contra hne
        simp [hne, -List.countP_eq_zero] at h
        omega
      simp only [hsb, if_true] at h
      simp only [SummaryFeedbackButton.handleRatingClickResume,
        SummaryFeedbackButton.afterSubmit, SummaryFeedbackButton.awaitReload,
        SummaryFeedbackButton.loadFeedbackStart, SummaryFeedbackButton.submitFinally,
        SummaryFeedbackButton.handleRatingClickCatch]
      cases o with
      | resolved v =>
        rcases hcb : q.onFeedbackSubmitted with _ | _ | e <;>
          by_cases hq : q.isAuthenticated = true <;>
          simp [hq, hsb, e4, f4, -List.countP_eq_zero] <;> omega
      | rejected er => simp [-List.countP_eq_zero]; omega
    · cases hs
  | textSubmitSettled q o =>
    simp only [SummaryFeedbackButton.step] at hs
    split at hs
    · cases hs
      rename_i hm
      have t1 := countP_erase_add SummaryFeedbackButton.Pending.isSubmit _ _ hm
      have t2 := countP_erase_add SummaryFeedbackButton.Pending.isReload _ _ hm
      simp only [e3, f3] at t1 t2
      simp [-List.countP_eq_zero] at t1 t2
      have hsb : st.submitting = true := by
        by_contra hne
        simp [hne, -List.countP_eq_zero] at h
        omega
      simp only [hsb, if_true] at h
      simp only [SummaryFeedbackButton.handleTextSubmitResume,
        SummaryFeedbackButton.afterSubmit, SummaryFeedbackButton.awaitReload,
        SummaryFeedbackButton.loadFeedbackStart, SummaryFeedbackButton.submitFinally,
        SummaryFeedbackButton.handleTextSubmitCatch]
      cases o with
      | resolved v =>
        rcases hcb : q.onFeedbackSubmitted with _ | _ | e <;>
          by_cases hq : q.isAuthenticated = true <;>
          simp [hq, hsb, e4, f4, -List.countP_eq_zero] <;> omega
      | rejected er => simp [-List.countP_eq_zero]; omega
    · cases hs
  | reloadSettled o =>
    simp only [SummaryFeedbackButton.step] at hs
    split at hs
    · cases hs
      rename_i hm
      have t1 := countP_erase_add SummaryFeedbackButton.Pending.isSubmit _ _ hm
      have t2 := countP_erase_add SummaryFeedbackButton.Pending.isReload _ _ hm
      simp only [e4, f4] at t1 t2
      simp [-List.countP_eq_zero] at t1 t2
      have hsb : st.submitting = true := by
        by_contra hne
        simp [hne, -List.countP_eq_zero] at h
        omega
      simp only [hsb, if_true] at h
      simp only [SummaryFeedbackButton.loadFeedbackResume, SummaryFeedbackButton.submitFinally]
      rcases o with ⟨_ | ⟨_ | uf, _ | sx⟩⟩ | er <;> simp [-List.countP_eq_zero] <;> omega
    · cases hs

/-- Summary widget: the count of requests a submit handler waits for, after mount. -/
theorem summary_mount_submitting (p : SummaryFeedbackButton.Props) :
    (SummaryFeedbackButton.mount p).submitsOutstanding
        + (SummaryFeedbackButton.mount p).reloadsOutstanding
      = if (SummaryFeedbackButton.mount p).state.submitting then 1 else 0 := by
  simp only [SummaryFeedbackButton.mount, SummaryFeedbackButton.runEffect,
    SummaryFeedbackButton.loadFeedbackStart, SummaryFeedbackButton.Config.submitsOutstanding,
    SummaryFeedbackButton.Config.reloadsOutstanding]
  split
  · split
    · rfl
    · rfl
  · rfl

/-- Message widget: in every reachable configuration `submitting` counts the
outstanding submits. -/
theorem chat_reachable_submitting (c : ChatFeedbackButton.Config)
    (h : ChatFeedbackButton.Reachable c) :
    c.submitsOutstanding = if c.state.submitting then 1 else 0 := by
  obtain ⟨p, es, hr⟩ := h
  exact chat_run_induction
    (fun c => c.submitsOutstanding = if c.state.submitting then 1 else 0)
    (fun c e c2 => chat_step_submitting c c2 e) es _ _
    (chat_mount_submitting p) hr

/-- Summary widget: in every reachable configuration `submitting` counts the
requests a submit handler is waiting for. -/
theorem summary_reachable_submitting (c : SummaryFeedbackButton.Config)
    (h : SummaryFeedbackButton.Reachable c) :
    c.submitsOutstanding + c.reloadsOutstanding = if c.state.submitting then 1 else 0 := by
  obtain ⟨p, es, hr⟩ := h
  exact summary_run_induction
    (fun c => c.submitsOutstanding + c.reloadsOutstanding
      = if c.state.submitting then 1 else 0)
    (fun c e c2 => summary_step_submitting c c2 e) es _ _
    (summary_mount_submitting p) hr

/-- A submit-triggering handler of the summary widget that finds `submitting`
set: nothing changes and no client call is made. -/
theorem summary_submitting_ignored (p : SummaryFeedbackButton.Props)
    (s : SummaryFeedbackButton.State) (r : Rating) (o : Outcome Unit)
    (reload : Outcome (Option SummaryFeedbackButton.Response)) (h : s.submitting = true) :
    ((runJs (SummaryFeedbackButton.handleRatingClick p r o reload) s).2.state = s
      ∧ (runJs (SummaryFeedbackButton.handleRatingClick p r o reload) s).2.trace.filter
          Effect.isClientCall = [])
    ∧ ((runJs (SummaryFeedbackButton.handleTextSubmit p o reload) s).2.state = s
      ∧ (runJs (SummaryFeedbackButton.handleTextSubmit p o reload) s).2.trace.filter
          Effect.isClientCall = []) := by
  obtain ⟨a, rt, rid, cb⟩ := p
  obtain ⟨u, ft, sh, sb, stt, l, sd⟩ := s
  subst h
  cases a <;> exact ⟨⟨rfl, rfl⟩, ⟨rfl, rfl⟩⟩

/-- Appending effects that are not text-carrying submit calls keeps the bound. -/
theorem summary_textBounded_trace (tr extra : List Effect)
    (h : ∀ rt rid rating text, Effect.submitSummaryFeedback rt rid rating (some text) ∈ tr →
      text.length ≤ SummaryFeedbackButton.maxLength)
    (hx : ∀ rt rid rating text, Effect.submitSummaryFeedback rt rid rating (some text) ∈ extra →
      text.length ≤ SummaryFeedbackButton.maxLength) :
    ∀ rt rid rating text, Effect.submitSummaryFeedback rt rid rating (some text) ∈ tr ++ extra →
      text.length ≤ SummaryFeedbackButton.maxLength := by
  intro rt rid rating text hm
  rcases List.mem_append.mp hm with hm | hm
  · exact h rt rid rating text hm
  · exact hx rt rid rating text hm

/-- The payload text `s || null` is no longer than `s`. -/
theorem orNull_length (s t : String) (h : orNull s = some t) : t.length = s.length := by
  unfold orNull at h
  split at h
  · cases h
  · cases h
    rfl

/-- Summary widget: one step keeps the text bound, when the event brings no
longer text from the server. -/
theorem summary_step_textBounded (c c2 : SummaryFeedbackButton.Config)
    (e : SummaryFeedbackButton.Event) (h : SummaryFeedbackButton.TextBounded c)
    (he : e.textWithinLimit = true) (hs : SummaryFeedbackButton.step c e = some c2) :
    SummaryFeedbackButton.TextBounded c2 := by
  obtain ⟨p, st, pd, tr⟩ := c
  obtain ⟨hl, ht⟩ := h
  simp only [] at hl ht
  have hload : ∀ (c : SummaryFeedbackButton.Config) (o : Outcome (Option SummaryFeedbackButton.Response)),
      SummaryFeedbackButton.textWithinLimit o = true → SummaryFeedbackButton.TextBounded c →
      SummaryFeedbackButton.TextBounded (SummaryFeedbackButton.loadFeedbackResume c o) := by
    intro c o ho hc
    obtain ⟨hc1, hc2⟩ := hc
    rcases o with ⟨_ | ⟨_ | uf, _ | sx⟩⟩ | er
    · exact ⟨hc1, hc2⟩
    · exact ⟨hc1, hc2⟩
    · exact ⟨hc1, hc2⟩
    · refine ⟨?_, hc2⟩
      simpa [SummaryFeedbackButton.textWithinLimit] using ho
    · refine ⟨?_, hc2⟩
      simpa [SummaryFeedbackButton.textWithinLimit] using ho
    · refine ⟨hc1, ?_⟩
      exact summary_textBounded_trace _ _ hc2 (by simp)
  have hafter : ∀ (c : SummaryFeedbackButton.Config) (q : SummaryFeedbackButton.Props)
      (u : Option Rating),
      SummaryFeedbackButton.TextBounded c →
      SummaryFeedbackButton.TextBounded
        (SummaryFeedbackButton.afterSubmit c q
          (fun c1 => SummaryFeedbackButton.handleRatingClickCatch c1 u))
      ∧ SummaryFeedbackButton.TextBounded
        (SummaryFeedbackButton.afterSubmit c q SummaryFeedbackButton.handleTextSubmitCatch) := by
    intro c q u hc
    obtain ⟨hc1, hc2⟩ := hc
    simp only [SummaryFeedbackButton.afterSubmit, SummaryFeedbackButton.awaitReload,
      SummaryFeedbackButton.loadFeedbackStart, SummaryFeedbackButton.submitFinally,
      SummaryFeedbackButton.handleRatingClickCatch,
      SummaryFeedbackButton.handleTextSubmitCatch]
    rcases q.onFeedbackSubmitted with _ | _ | e <;> cases q.isAuthenticated <;>
      refine ⟨⟨hc1, ?_⟩, ⟨hc1, ?_⟩⟩ <;> simp <;> exact hc2
  cases e with
  | rerender p2 =>
    simp only [SummaryFeedbackButton.step, SummaryFeedbackButton.runEffect,
      SummaryFeedbackButton.loadFeedbackStart] at hs
    split at hs <;> cases hs
    · split
      · split
        · exact ⟨hl, ht⟩
        · exact ⟨hl, summary_textBounded_trace _ _ ht (by simp)⟩
      · exact ⟨hl, ht⟩
    · exact ⟨hl, ht⟩
  | ratingClick r =>
    simp only [SummaryFeedbackButton.step, SummaryFeedbackButton.handleRatingClickStart] at hs
    cases hs
    split
    · exact ⟨hl, summary_textBounded_trace _ _ ht (by simp)⟩
    · split
      · exact ⟨hl, ht⟩
      · refine ⟨hl, summary_textBounded_trace _ _ ht ?_⟩
        intro rt rid rating text hm
        simp only [List.mem_singleton, Effect.submitSummaryFeedback.injEq] at hm
        rw [orNull_length _ _ hm.2.2.2.symm]
        exact hl
  | textSubmitClick =>
    simp only [SummaryFeedbackButton.step, SummaryFeedbackButton.handleTextSubmitStart] at hs
    cases hs
    split
    · exact ⟨hl, summary_textBounded_trace _ _ ht (by simp)⟩
    · split
      · exact ⟨hl, ht⟩
      · refine ⟨hl, summary_textBounded_trace _ _ ht ?_⟩
        intro rt rid rating text hm
        simp only [List.mem_singleton, Effect.submitSummaryFeedback.injEq] at hm
        rw [orNull_length _ _ hm.2.2.2.symm]
        exact hl
  | addCommentClick =>
    simp only [SummaryFeedbackButton.step] at hs
    cases hs
    exact ⟨hl, ht⟩
  | cancelClick =>
    simp only [SummaryFeedbackButton.step] at hs
    cases hs
    exact ⟨Nat.zero_le _, ht⟩
  | textChange v =>
    simp only [SummaryFeedbackButton.step] at hs
    cases hs
    exact ⟨by simpa [SummaryFeedbackButton.Event.textWithinLimit] using he, ht⟩
  | loadSettled o =>
    simp only [SummaryFeedbackButton.step] at hs
    split at hs
    · cases hs
      exact hload _ o he ⟨hl, ht⟩
    · cases hs
  | ratingSubmitSettled q u o =>
    simp only [SummaryFeedbackButton.step] at hs
    split at hs
    · cases hs
      cases o with
      | resolved v => exact (hafter _ q u ⟨hl, ht⟩).1
      | rejected er =>
        exact ⟨hl, summary_textBounded_trace _ _ ht (by simp)⟩
    · cases hs
  | textSubmitSettled q o =>
    simp only [SummaryFeedbackButton.step] at hs
    split at hs
    · cases hs
      cases o with
      | resolved v => exact (hafter _ q none ⟨hl, ht⟩).2
      | rejected er =>
        exact ⟨hl, summary_textBounded_trace _ _ ht (by simp)⟩
    · cases hs
  | reloadSettled o =>
    simp only [SummaryFeedbackButton.step] at hs
    split at hs
    · cases hs
      exact hload _ o he ⟨hl, ht⟩
    · cases hs

/-- Summary widget: the text bound holds after mount. -/
theorem summary_mount_textBounded (p : SummaryFeedbackButton.Props) :
    SummaryFeedbackButton.TextBounded (SummaryFeedbackButton.mount p) := by
  simp only [SummaryFeedbackButton.mount, SummaryFeedbackButton.runEffect,
    SummaryFeedbackButton.loadFeedbackStart]
  split
  · split
    · exact ⟨Nat.zero_le _, by simp [SummaryFeedbackButton.State.initial]⟩
    · exact ⟨Nat.zero_le _, by simp⟩
  · exact ⟨Nat.zero_le _, by simp⟩

/-- Summary widget: the text bound holds along every run whose events bring no
longer text from the server. -/
theorem summary_run_textBounded (es : List SummaryFeedbackButton.Event) :
    ∀ c c2, SummaryFeedbackButton.TextBounded c → (∀ e ∈ es, e.textWithinLimit = true) →
      SummaryFeedbackButton.run c es = some c2 → SummaryFeedbackButton.TextBounded c2 := by
  induction es with
  | nil =>
    intro c c2 hc _ hr
    simp only [SummaryFeedbackButton.run, Option.some.injEq] at hr
    exact hr ▸ hc
  | cons e t ih =>
    intro c c2 hc hb hr
    simp only [SummaryFeedbackButton.run] at hr
    cases hs : SummaryFeedbackButton.step c e with
    | none => simp [hs] at hr
    | some c1 =>
      simp only [hs] at hr
      exact ih c1 c2
        (summary_step_textBounded c c1 e hc (hb e (List.mem_cons_self _ _)) hs)
        (fun x hx => hb x (List.mem_cons_of_mem _ hx)) hr

/-- Summary widget: a load response bringing a non-empty text `t`, followed by
a thumbs_up click, whatever the length of `t`. -/
theorem summary_run_server_text (t : String) (ht : t ≠ "") :
    SummaryFeedbackButton.run (SummaryFeedbackButton.mount ⟨true, "j", "1", none⟩)
        [SummaryFeedbackButton.Event.loadSettled
            (Outcome.resolved (some ⟨some ⟨none, some t⟩, none⟩)),
          SummaryFeedbackButton.Event.ratingClick Rating.thumbs_up]
      = some
        { props := ⟨true, "j", "1", none⟩
          state := ⟨some Rating.thumbs_up, t, false, true, none, false, true⟩
          pending := [SummaryFeedbackButton.Pending.handleRatingClick ⟨true, "j", "1", none⟩ none]
          trace := [Effect.getSummaryFeedback "j" "1",
            Effect.submitSummaryFeedback "j" "1" (some Rating.thumbs_up) (some t)] } := by
  have hm : SummaryFeedbackButton.mount ⟨true, "j", "1", none⟩
      = ⟨⟨true, "j", "1", none⟩, ⟨none, "", false, false, none, true, false⟩,
          [SummaryFeedbackButton.Pending.loadFeedback],
          [Effect.getSummaryFeedback "j" "1"]⟩ := by decide
  rw [hm]
  simp [SummaryFeedbackButton.run, SummaryFeedbackButton.step,
    SummaryFeedbackButton.loadFeedbackResume, SummaryFeedbackButton.handleRatingClickStart,
    orEmpty, orNull, ht]

/-- Summary widget: a non-empty text `t` reported by the textarea, followed by
a text submission, whatever the length of `t`. -/
theorem summary_run_entered_text (t : String) (ht : t ≠ "") :
    SummaryFeedbackButton.run (SummaryFeedbackButton.mount ⟨true, "j", "1", none⟩)
        [SummaryFeedbackButton.Event.loadSettled (Outcome.resolved none),
          SummaryFeedbackButton.Event.addCommentClick,
          SummaryFeedbackButton.Event.textChange t,
          SummaryFeedbackButton.Event.textSubmitClick]
      = some
        { props := ⟨true, "j", "1", none⟩
          state := ⟨none, t, true, true, none, false, false⟩
          pending := [SummaryFeedbackButton.Pending.handleTextSubmit ⟨true, "j", "1", none⟩]
          trace := [Effect.getSummaryFeedback "j" "1",
            Effect.submitSummaryFeedback "j" "1" none (some t)] } := by
  have hm : SummaryFeedbackButton.mount ⟨true, "j", "1", none⟩
      = ⟨⟨true, "j", "1", none⟩, ⟨none, "", false, false, none, true, false⟩,
          [SummaryFeedbackButton.Pending.loadFeedback],
          [Effect.getSummaryFeedback "j" "1"]⟩ := by decide
  rw [hm]
  simp [SummaryFeedbackButton.run, SummaryFeedbackButton.step,
    SummaryFeedbackButton.loadFeedbackResume, SummaryFeedbackButton.handleTextSubmitStart,
    orNull, ht]

/-! ## Sessions: the state follows the server -/

/-- Message widget: the effect does nothing without authentication or id. -/
theorem chat_useEffect_skip (p : ChatFeedbackButton.Props)
    (s : ChatFeedbackButton.State) (o : Outcome (Option ChatFeedbackButton.Response))
    (h : p.isAuthenticated = false ∨ p.messageId = "") :
    runJs (ChatFeedbackButton.useEffect p o) s = (Except.ok (), { state := s, trace := [] }) := by
  obtain ⟨a, m, cb⟩ := p
  rcases h with h | h
  · simp only [] at h
    subst h
    rfl
  · simp only [] at h
    subst h
    cases a <;> rfl

/-- Message widget: the effect's load, settled. -/
theorem chat_useEffect_load (p : ChatFeedbackButton.Props)
    (s : ChatFeedbackButton.State) (o : Outcome (Option ChatFeedbackButton.Response))
    (ha : p.isAuthenticated = true) (hm : p.messageId ≠ "") :
    (runJs (ChatFeedbackButton.useEffect p o) s).2.state
        = { s with
            userRating :=
              match ChatFeedbackButton.reportedRating o with
              | some r => r
              | none => s.userRating
            submitted := (ChatFeedbackButton.reportedRating o).isSome || s.submitted
            loading := false }
      ∧ ChatFeedbackButton.exchangesOf (runJs (ChatFeedbackButton.useEffect p o) s).2.trace o
          (Outcome.resolved ()) = [ChatFeedbackButton.Exchange.load o] := by
  obtain ⟨a, m, cb⟩ := p
  obtain ⟨u, sb, l, sd⟩ := s
  simp only [] at ha hm
  subst ha
  have hb : truthy m = true := by simp [truthy, hm]
  simp only [ChatFeedbackButton.useEffect, ChatFeedbackButton.loadFeedback, hb]
  rcases o with ⟨_ | ⟨_ | uf⟩⟩ | er <;> exact ⟨rfl, rfl⟩

/-- Message widget: a load that fails, or whose response carries no
`user_feedback`, leaves `userRating` and `submitted` as they were; one that
carries `user_feedback` sets them. -/
theorem chat_loadFeedback_state (p : ChatFeedbackButton.Props)
    (s : ChatFeedbackButton.State) (o : Outcome (Option ChatFeedbackButton.Response))
    (ha : p.isAuthenticated = true) (hm : p.messageId ≠ "") :
    (runJs (ChatFeedbackButton.loadFeedback p o) s).1 = Except.ok ()
    ∧ (runJs (ChatFeedbackButton.loadFeedback p o) s).2.state
        = { s with
            userRating :=
              match ChatFeedbackButton.reportedRating o with
              | some r => r
              | none => s.userRating
            submitted := (ChatFeedbackButton.reportedRating o).isSome || s.submitted
            loading := false } := by
  obtain ⟨a, m, cb⟩ := p
  obtain ⟨u, sb, l, sd⟩ := s
  simp only [] at ha hm
  subst ha
  have hb : truthy m = true := by simp [truthy, hm]
  simp only [ChatFeedbackButton.loadFeedback, hb]
  rcases o with ⟨_ | ⟨_ | uf⟩⟩ | er <;> exact ⟨rfl, rfl⟩

/-- Message widget: one interaction keeps `userRating` equal to the rating the
server last reported or acknowledged. -/
theorem chat_apply_tracks (i : ChatFeedbackButton.Session)
    (op : ChatFeedbackButton.Op)
    (h : i.state.userRating = ChatFeedbackButton.serverRating i.exchanges)
    (hp : callbackReturns i.props.onFeedbackSubmitted = true) :
    (i.apply op).state.userRating = ChatFeedbackButton.serverRating (i.apply op).exchanges := by
  cases op with
  | rerender p o =>
    simp only [ChatFeedbackButton.Session.apply]
    split
    · by_cases hsk : p.isAuthenticated = false ∨ p.messageId = ""
      · rw [chat_useEffect_skip p _ o hsk]
        simpa [ChatFeedbackButton.exchangesOf] using h
      · have ha : p.isAuthenticated = true := by simpa using (not_or.mp hsk).1
        obtain ⟨h1, h2⟩ := chat_useEffect_load p i.state o ha (not_or.mp hsk).2
        simp only [h1, h2, List.reverse_cons, List.reverse_nil, List.nil_append,
          List.singleton_append, ChatFeedbackButton.serverRating,
          ChatFeedbackButton.Exchange.rating]
        cases ChatFeedbackButton.reportedRating o with
        | none => exact h
        | some r => rfl
    · exact h
  | click r o =>
    simp only [ChatFeedbackButton.Session.apply]
    by_cases hg : i.props.isAuthenticated = false ∨ i.state.submitting = true
    · rw [chat_click_ignored _ _ r o hg]
      simpa [ChatFeedbackButton.exchangesOf] using h
    · have ha : i.props.isAuthenticated = true := by simpa using (not_or.mp hg).1
      have hs : i.state.submitting = false := by simpa using (not_or.mp hg).2
      cases o with
      | resolved v =>
        rw [chat_click_resolved _ _ r ha hs hp]
        cases i.props.onFeedbackSubmitted <;>
          simp [ChatFeedbackButton.exchangesOf, ChatFeedbackButton.serverRating,
            ChatFeedbackButton.Exchange.rating]
      | rejected er =>
        rw [chat_click_rejected _ _ r er ha hs]
        simpa [ChatFeedbackButton.exchangesOf, ChatFeedbackButton.serverRating,
          ChatFeedbackButton.Exchange.rating] using h

/-- Message widget: an interaction whose callback returns leaves a session
whose callback returns. -/
theorem chat_apply_callback (i : ChatFeedbackButton.Session)
    (op : ChatFeedbackButton.Op)
    (hp : callbackReturns i.props.onFeedbackSubmitted = true)
    (hop : op.callbackReturns = true) :
    callbackReturns (i.apply op).props.onFeedbackSubmitted = true := by
  cases op with
  | rerender p o =>
    simp only [ChatFeedbackButton.Session.apply]
    split
    · exact hop
    · exact hop
  | click r o => exact hp

/-- Message widget: after mount `userRating` is what the first load reported. -/
theorem chat_mount_tracks (p : ChatFeedbackButton.Props)
    (o : Outcome (Option ChatFeedbackButton.Response)) :
    (ChatFeedbackButton.Session.mount p o).state.userRating
      = ChatFeedbackButton.serverRating (ChatFeedbackButton.Session.mount p o).exchanges := by
  simp only [ChatFeedbackButton.Session.mount]
  by_cases hsk : p.isAuthenticated = false ∨ p.messageId = ""
  · rw [chat_useEffect_skip p _ o hsk]
    rfl
  · have ha : p.isAuthenticated = true := by simpa using (not_or.mp hsk).1
    obtain ⟨h1, h2⟩ :=
      chat_useEffect_load p ChatFeedbackButton.State.initial o ha (not_or.mp hsk).2
    simp only [h1, h2, List.reverse_cons, List.reverse_nil, List.nil_append,
      ChatFeedbackButton.serverRating, ChatFeedbackButton.Exchange.rating]
    cases ChatFeedbackButton.reportedRating o <;> rfl

/-- Message widget: along a session `userRating` is the rating the server
last reported or acknowledged. -/
theorem chat_session_tracks (ops : List ChatFeedbackButton.Op) :
    ∀ i : ChatFeedbackButton.Session,
      i.state.userRating = ChatFeedbackButton.serverRating i.exchanges →
      callbackReturns i.props.onFeedbackSubmitted = true →
      (∀ op ∈ ops, op.callbackReturns = true) →
      (ops.foldl ChatFeedbackButton.Session.apply i).state.userRating
        = ChatFeedbackButton.serverRating
            (ops.foldl ChatFeedbackButton.Session.apply i).exchanges := by
  induction ops with
  | nil => exact fun i h _ _ => h
  | cons op t ih =>
    intro i h hp hops
    refine ih (i.apply op) (chat_apply_tracks i op h hp)
      (chat_apply_callback i op hp (hops op (List.mem_cons_self _ _)))
      (fun x hx => hops x (List.mem_cons_of_mem _ hx))

/-- Summary widget: the effect does nothing without authentication or
reference. -/
theorem summary_useEffect_skip (p : SummaryFeedbackButton.Props)
    (s : SummaryFeedbackButton.State) (o : Outcome (Option SummaryFeedbackButton.Response))
    (h : p.isAuthenticated = false ∨ p.referenceType = "" ∨ p.referenceId = "") :
    runJs (SummaryFeedbackButton.useEffect p o) s
      = (Except.ok (), { state := s, trace := [] }) := by
  obtain ⟨a, rt, rid, cb⟩ := p
  have hc : (a && truthy rt && truthy rid) = false := by
    rcases h with h | h | h <;> simp only [] at h <;> subst h <;> simp [truthy]
  simp only [SummaryFeedbackButton.useEffect, hc]
  rfl

/-- Summary widget: a settled `loadFeedback` of an authenticated render sets
`userRating` and `submitted` when its response carries `user_feedback`, and
leaves them as they were otherwise. -/
theorem summary_loadFeedback_state (p : SummaryFeedbackButton.Props)
    (s : SummaryFeedbackButton.State) (o : Outcome (Option SummaryFeedbackButton.Response))
    (ha : p.isAuthenticated = true) :
    (runJs (SummaryFeedbackButton.loadFeedback p o) s).1 = Except.ok ()
    ∧ (runJs (SummaryFeedbackButton.loadFeedback p o) s).2.state.userRating
        = (match SummaryFeedbackButton.reportedRating o with
          | some r => r
          | none => s.userRating)
    ∧ (runJs (SummaryFeedbackButton.loadFeedback p o) s).2.state.submitted
        = ((SummaryFeedbackButton.reportedRating o).isSome || s.submitted)
    ∧ SummaryFeedbackButton.exchangesOf
        (runJs (SummaryFeedbackButton.loadFeedback p o) s).2.trace o (Outcome.resolved ())
        = [SummaryFeedbackButton.Exchange.load o] := by
  obtain ⟨a, rt, rid, cb⟩ := p
  obtain ⟨u, ft, sh, sb, stt, l, sd⟩ := s
  simp only [] at ha
  subst ha
  rcases o with ⟨_ | ⟨_ | uf, _ | sx⟩⟩ | er <;> exact ⟨rfl, rfl, rfl, rfl⟩

/-- Summary widget: the effect's load, settled. -/
theorem summary_useEffect_load (p : SummaryFeedbackButton.Props)
    (s : SummaryFeedbackButton.State) (o : Outcome (Option SummaryFeedbackButton.Response))
    (ha : p.isAuthenticated = true) (hrt : p.referenceType ≠ "") (hrid : p.referenceId ≠ "") :
    runJs (SummaryFeedbackButton.useEffect p o) s
      = runJs (SummaryFeedbackButton.loadFeedback p o) s := by
  have hc : (p.isAuthenticated && truthy p.referenceType && truthy p.referenceId) = true := by
    simp [truthy, ha, hrt, hrid]
  simp only [SummaryFeedbackButton.useEffect, hc]
  rfl

/-- Summary widget: a submit handler that its guards turn away. -/
theorem summary_handlers_ignored (p : SummaryFeedbackButton.Props)
    (s : SummaryFeedbackButton.State) (r : Rating) (o : Outcome Unit)
    (reload : Outcome (Option SummaryFeedbackButton.Response))
    (h : p.isAuthenticated = false ∨ s.submitting = true) :
    ((runJs (SummaryFeedbackButton.handleRatingClick p r o reload) s).2.state = s
      ∧ SummaryFeedbackButton.exchangesOf
          (runJs (SummaryFeedbackButton.handleRatingClick p r o reload) s).2.trace reload o = [])
    ∧ ((runJs (SummaryFeedbackButton.handleTextSubmit p o reload) s).2.state = s
      ∧ SummaryFeedbackButton.exchangesOf
          (runJs (SummaryFeedbackButton.handleTextSubmit p o reload) s).2.trace reload o = []) := by
  obtain ⟨a, rt, rid, cb⟩ := p
  obtain ⟨u, ft, sh, sb, stt, l, sd⟩ := s
  rcases h with h | h
  · simp only [] at h
    subst h
    exact ⟨⟨rfl, rfl⟩, ⟨rfl, rfl⟩⟩
  · simp only [] at h
    subst h
    cases a <;> exact ⟨⟨rfl, rfl⟩, ⟨rfl, rfl⟩⟩

/-- A resolved text submission in the summary widget, re-fetch included. -/
theorem summary_text_resolved (p : SummaryFeedbackButton.Props)
    (s : SummaryFeedbackButton.State)
    (reload : Outcome (Option SummaryFeedbackButton.Response))
    (hauth : p.isAuthenticated = true) (hsub : s.submitting = false)
    (hcb : callbackReturns p.onFeedbackSubmitted = true) :
    (runJs (SummaryFeedbackButton.handleTextSubmit p (Outcome.resolved ()) reload)
        s).2.state.userRating
        = (match SummaryFeedbackButton.reportedRating reload with
          | some reported => reported
          | none => s.userRating)
    ∧ SummaryFeedbackButton.exchangesOf
        (runJs (SummaryFeedbackButton.handleTextSubmit p (Outcome.resolved ()) reload)
          s).2.trace reload (Outcome.resolved ())
        = [SummaryFeedbackButton.Exchange.submit s.userRating (Outcome.resolved ()),
          SummaryFeedbackButton.Exchange.load reload] := by
  obtain ⟨a, rt, rid, cb⟩ := p
  obtain ⟨u, ft, sh, sb, stt, l, sd⟩ := s
  subst hauth
  subst hsub
  rcases cb with _ | _ | e
  · rcases reload with ⟨_ | ⟨_ | uf, _ | st⟩⟩ | e <;> exact ⟨rfl, rfl⟩
  · rcases reload with ⟨_ | ⟨_ | uf, _ | st⟩⟩ | e <;> exact ⟨rfl, rfl⟩
  · cases hcb

/-- A rejected text submission in the summary widget. -/
theorem summary_text_rejected (p : SummaryFeedbackButton.Props)
    (s : SummaryFeedbackButton.State) (err : String)
    (reload : Outcome (Option SummaryFeedbackButton.Response))
    (hauth : p.isAuthenticated = true) (hsub : s.submitting = false) :
    runJs (SummaryFeedbackButton.handleTextSubmit p (Outcome.rejected err) reload) s
      = (Except.ok (),
          { state := s
            trace := [Effect.submitSummaryFeedback p.referenceType p.referenceId s.userRating
                (if s.feedbackText = "" then none else some s.feedbackText),
              Effect.consoleError "Error submitting text feedback:",
              Effect.alert "Failed to submit feedback. Please try again."] }) := by
  obtain ⟨a, rt, rid, cb⟩ := p
  obtain ⟨u, ft, sh, sb, stt, l, sd⟩ := s
  subst hauth
  subst hsub
  rfl

/-- Summary widget: one interaction keeps `userRating` equal to the rating the
server last reported or acknowledged. -/
theorem summary_apply_tracks (i : SummaryFeedbackButton.Session)
    (op : SummaryFeedbackButton.Op)
    (h : i.state.userRating = SummaryFeedbackButton.serverRating i.exchanges)
    (hp : callbackReturns i.props.onFeedbackSubmitted = true) :
    (i.apply op).state.userRating
      = SummaryFeedbackButton.serverRating (i.apply op).exchanges := by
  cases op with
  | rerender p o =>
    simp only [SummaryFeedbackButton.Session.apply]
    split
    · by_cases hsk : p.isAuthenticated = false ∨ p.referenceType = "" ∨ p.referenceId = ""
      · rw [summary_useEffect_skip p _ o hsk]
        simpa [SummaryFeedbackButton.exchangesOf] using h
      · have ha : p.isAuthenticated = true := by simpa using (not_or.mp hsk).1
        rw [summary_useEffect_load p _ o ha (not_or.mp (not_or.mp hsk).2).1
          (not_or.mp (not_or.mp hsk).2).2]
        obtain ⟨-, h1, -, h2⟩ := summary_loadFeedback_state p i.state o ha
        simp only [h1, h2, List.reverse_cons, List.reverse_nil, List.nil_append,
          List.singleton_append, SummaryFeedbackButton.serverRating,
          SummaryFeedbackButton.Exchange.rating]
        cases SummaryFeedbackButton.reportedRating o with
        | none => exact h
        | some r => rfl
    · exact h
  | ratingClick r o reload =>
    simp only [SummaryFeedbackButton.Session.apply]
    by_cases hg : i.props.isAuthenticated = false ∨ i.state.submitting = true
    · obtain ⟨⟨g1, g2⟩, -⟩ := summary_handlers_ignored _ _ r o reload hg
      rw [g1, g2]
      exact h
    · have ha : i.props.isAuthenticated = true := by simpa using (not_or.mp hg).1
      have hs : i.state.submitting = false := by simpa using (not_or.mp hg).2
      cases o with
      | resolved v =>
        obtain ⟨-, h1, -, -, -, h2⟩ :=
          summary_click_resolved i.props i.state r reload ha hs hp
        simp only [h1, h2, List.reverse_cons, List.reverse_nil, List.nil_append,
          List.cons_append, SummaryFeedbackButton.serverRating,
          SummaryFeedbackButton.Exchange.rating]
      | rejected er =>
        rw [summary_click_rejected _ _ r er reload ha hs]
        simpa [SummaryFeedbackButton.exchangesOf, SummaryFeedbackButton.serverRating,
          SummaryFeedbackButton.Exchange.rating] using h
  | textSubmitClick o reload =>
    simp only [SummaryFeedbackButton.Session.apply]
    by_cases hg : i.props.isAuthenticated = false ∨ i.state.submitting = true
    · obtain ⟨-, g1, g2⟩ :=
        summary_handlers_ignored _ _ Rating.thumbs_up o reload hg
      rw [g1, g2]
      exact h
    · have ha : i.props.isAuthenticated = true := by simpa using (not_or.mp hg).1
      have hs : i.state.submitting = false := by simpa using (not_or.mp hg).2
      cases o with
      | resolved v =>
        obtain ⟨h1, h2⟩ :=
          summary_text_resolved i.props i.state reload ha hs hp
        simp only [h1, h2, List.reverse_cons, List.reverse_nil, List.nil_append,
          List.cons_append, SummaryFeedbackButton.serverRating,
          SummaryFeedbackButton.Exchange.rating]
      | rejected er =>
        rw [summary_text_rejected _ _ er reload ha hs]
        simpa [SummaryFeedbackButton.exchangesOf, SummaryFeedbackButton.serverRating,
          SummaryFeedbackButton.Exchange.rating] using h
  | addCommentClick => exact h
  | cancelClick => exact h
  | textChange v => exact h

/-- Summary widget: an interaction whose callback returns leaves a session
whose callback returns. -/
theorem summary_apply_callback (i : SummaryFeedbackButton.Session)
    (op : SummaryFeedbackButton.Op)
    (hp : callbackReturns i.props.onFeedbackSubmitted = true)
    (hop : op.callbackReturns = true) :
    callbackReturns (i.apply op).props.onFeedbackSubmitted = true := by
  cases op with
  | rerender p o =>
    simp only [SummaryFeedbackButton.Session.apply]
    split
    · exact hop
    · exact hop
  | ratingClick r o reload => exact hp
  | textSubmitClick o reload => exact hp
  | addCommentClick => exact hp
  | cancelClick => exact hp
  | textChange v => exact hp

/-- Summary widget: after mount `userRating` is what the first load reported. -/
theorem summary_mount_tracks (p : SummaryFeedbackButton.Props)
    (o : Outcome (Option SummaryFeedbackButton.Response)) :
    (SummaryFeedbackButton.Session.mount p o).state.userRating
      = SummaryFeedbackButton.serverRating
          (SummaryFeedbackButton.Session.mount p o).exchanges := by
  simp only [SummaryFeedbackButton.Session.mount]
  by_cases hsk : p.isAuthenticated = false ∨ p.referenceType = "" ∨ p.referenceId = ""
  · rw [summary_useEffect_skip p _ o hsk]
    rfl
  · have ha : p.isAuthenticated = true := by simpa using (not_or.mp hsk).1
    rw [summary_useEffect_load p _ o ha (not_or.mp (not_or.mp hsk).2).1
      (not_or.mp (not_or.mp hsk).2).2]
    obtain ⟨-, h1, -, h2⟩ :=
      summary_loadFeedback_state p SummaryFeedbackButton.State.initial o ha
    simp only [h1, h2, List.reverse_cons, List.reverse_nil, List.nil_append,
      SummaryFeedbackButton.serverRating, SummaryFeedbackButton.Exchange.rating]
    cases SummaryFeedbackButton.reportedRating o <;> rfl

/-- Summary widget: along a session `userRating` is the rating the server
last reported or acknowledged. -/
theorem summary_session_tracks (ops : List SummaryFeedbackButton.Op) :
    ∀ i : SummaryFeedbackButton.Session,
      i.state.userRating = SummaryFeedbackButton.serverRating i.exchanges →
      callbackReturns i.props.onFeedbackSubmitted = true →
      (∀ op ∈ ops, op.callbackReturns = true) →
      (ops.foldl SummaryFeedbackButton.Session.apply i).state.userRating
        = SummaryFeedbackButton.serverRating
            (ops.foldl SummaryFeedbackButton.Session.apply i).exchanges := by
  induction ops with
  | nil => exact fun i h _ _ => h
  | cons op t ih =>
    intro i h hp hops
    refine ih (i.apply op) (summary_apply_tracks i op h hp)
      (summary_apply_callback i op hp (hops op (List.mem_cons_self _ _)))
      (fun x hx => hops x (List.mem_cons_of_mem _ hx))

/-- Message widget: `loadFeedback` returns at once without authentication or
id. -/
theorem chat_loadFeedback_skip (p : ChatFeedbackButton.Props)
    (s : ChatFeedbackButton.State) (o : Outcome (Option ChatFeedbackButton.Response))
    (h : p.isAuthenticated = false ∨ p.messageId = "") :
    runJs (ChatFeedbackButton.loadFeedback p o) s
      = (Except.ok (), { state := s, trace := [] }) := by
  obtain ⟨a, m, cb⟩ := p
  rcases h with h | h
  · simp only [] at h
    subst h
    rfl
  · simp only [] at h
    subst h
    cases a <;> rfl

/-- Summary widget: `loadFeedback` returns at once without authentication. -/
theorem summary_loadFeedback_skip (p : SummaryFeedbackButton.Props)
    (s : SummaryFeedbackButton.State) (o : Outcome (Option SummaryFeedbackButton.Response))
    (h : p.isAuthenticated = false) :
    runJs (SummaryFeedbackButton.loadFeedback p o) s
      = (Except.ok (), { state := s, trace := [] }) := by
  obtain ⟨a, rt, rid, cb⟩ := p
  simp only [] at h
  subst h
  rfl

/-! ## The handlers and the machine agree -/

/-- Message widget: a rating click whose submit settles before anything else
happens is the run-to-completion handler. -/
theorem chat_click_agrees (p : ChatFeedbackButton.Props)
    (s : ChatFeedbackButton.State) (r : Rating) (o : Outcome Unit)
    (hauth : p.isAuthenticated = true) (hsub : s.submitting = false) :
    ChatFeedbackButton.run { props := p, state := s, pending := [], trace := [] }
        [ChatFeedbackButton.Event.click r,
          ChatFeedbackButton.Event.submitSettled s.userRating p.onFeedbackSubmitted o]
      = some
        { props := p
          state := (runJs (ChatFeedbackButton.handleRatingClick p r o) s).2.state
          pending := []
          trace := (runJs (ChatFeedbackButton.handleRatingClick p r o) s).2.trace } := by
  obtain ⟨a, m, cb⟩ := p
  obtain ⟨u, sb, l, sd⟩ := s
  simp only [] at hauth hsub
  subst hauth
  subst hsub
  simp only [ChatFeedbackButton.run, ChatFeedbackButton.step,
    ChatFeedbackButton.handleRatingClickStart, List.nil_append, List.mem_singleton,
    List.erase_cons_head, Bool.not_true, Bool.false_eq_true, if_false, if_true]
  rcases o with v | er
  · rcases cb with _ | _ | e <;> rfl
  · rfl

/-- Message widget: a rating click that the guards turn away leaves no
request pending, in the machine as in the handler. -/
theorem chat_click_ignored_agrees (p : ChatFeedbackButton.Props)
    (s : ChatFeedbackButton.State) (r : Rating) (o : Outcome Unit)
    (h : p.isAuthenticated = false ∨ s.submitting = true) :
    ChatFeedbackButton.run { props := p, state := s, pending := [], trace := [] }
        [ChatFeedbackButton.Event.click r]
      = some
        { props := p
          state := (runJs (ChatFeedbackButton.handleRatingClick p r o) s).2.state
          pending := []
          trace := (runJs (ChatFeedbackButton.handleRatingClick p r o) s).2.trace } := by
  rw [chat_click_ignored p s r o h]
  rcases h with h | h
  · simp [ChatFeedbackButton.run, ChatFeedbackButton.step,
      ChatFeedbackButton.handleRatingClickStart, h]
  · simp [ChatFeedbackButton.run, ChatFeedbackButton.step,
      ChatFeedbackButton.handleRatingClickStart, h]

/-- Message widget: the effect's load, settled before anything else happens,
is the run-to-completion `useEffect`. -/
theorem chat_useEffect_agrees (p : ChatFeedbackButton.Props)
    (s : ChatFeedbackButton.State) (o : Outcome (Option ChatFeedbackButton.Response))
    (ha : p.isAuthenticated = true) (hm : p.messageId ≠ "") :
    ChatFeedbackButton.run
        (ChatFeedbackButton.runEffect { props := p, state := s, pending := [], trace := [] })
        [ChatFeedbackButton.Event.loadSettled o]
      = some
        { props := p
          state := (runJs (ChatFeedbackButton.useEffect p o) s).2.state
          pending := []
          trace := (runJs (ChatFeedbackButton.useEffect p o) s).2.trace } := by
  obtain ⟨a, m, cb⟩ := p
  obtain ⟨u, sb, l, sd⟩ := s
  simp only [] at ha hm
  subst ha
  have hb : truthy m = true := by simp [truthy, hm]
  simp only [ChatFeedbackButton.useEffect, ChatFeedbackButton.loadFeedback,
    ChatFeedbackButton.runEffect, ChatFeedbackButton.loadFeedbackStart, hb]
  rcases o with ⟨_ | ⟨_ | uf⟩⟩ | er <;> rfl

/-- Summary widget: a rating click whose submit, and then re-fetch (there is
none when the callback throws), settle before anything else happens is the
run-to-completion handler. -/
theorem summary_click_agrees (p : SummaryFeedbackButton.Props)
    (s : SummaryFeedbackButton.State) (r : Rating) (err : String)
    (reload : Outcome (Option SummaryFeedbackButton.Response))
    (hauth : p.isAuthenticated = true) (hsub : s.submitting = false) :
    SummaryFeedbackButton.run { props := p, state := s, pending := [], trace := [] }
        ([SummaryFeedbackButton.Event.ratingClick r,
            SummaryFeedbackButton.Event.ratingSubmitSettled p s.userRating (Outcome.resolved ())]
          ++ (if callbackReturns p.onFeedbackSubmitted
              then [SummaryFeedbackButton.Event.reloadSettled reload] else []))
      = some
        { props := p
          state := (runJs (SummaryFeedbackButton.handleRatingClick p r (Outcome.resolved ())
            reload) s).2.state
          pending := []
          trace := (runJs (SummaryFeedbackButton.handleRatingClick p r (Outcome.resolved ())
            reload) s).2.trace }
    ∧ SummaryFeedbackButton.run { props := p, state := s, pending := [], trace := [] }
        [SummaryFeedbackButton.Event.ratingClick r,
          SummaryFeedbackButton.Event.ratingSubmitSettled p s.userRating (Outcome.rejected err)]
      = some
        { props := p
          state := (runJs (SummaryFeedbackButton.handleRatingClick p r (Outcome.rejected err)
            reload) s).2.state
          pending := []
          trace := (runJs (SummaryFeedbackButton.handleRatingClick p r (Outcome.rejected err)
            reload) s).2.trace } := by
  obtain ⟨a, rt, rid, cb⟩ := p
  obtain ⟨u, ft, sh, sb, stt, l, sd⟩ := s
  simp only [] at hauth hsub
  subst hauth
  subst hsub
  constructor
  · rcases cb with _ | _ | e <;>
      simp only [callbackReturns, SummaryFeedbackButton.run, SummaryFeedbackButton.step,
        SummaryFeedbackButton.handleRatingClickStart, List.nil_append, List.mem_singleton,
        List.erase_cons_head, List.cons_append, List.append_nil, Bool.not_true,
        Bool.false_eq_true, if_false, if_true] <;>
      rcases reload with ⟨_ | ⟨_ | uf, _ | st⟩⟩ | e2 <;> rfl
  · simp only [SummaryFeedbackButton.run, SummaryFeedbackButton.step,
      SummaryFeedbackButton.handleRatingClickStart, List.nil_append, List.mem_singleton,
      List.erase_cons_head, Bool.not_true, Bool.false_eq_true, if_false, if_true]
    rfl

/-- Summary widget: a text submission whose submit, and then re-fetch (there
is none when the callback throws), settle before anything else happens is the
run-to-completion handler. -/
theorem summary_text_agrees (p : SummaryFeedbackButton.Props)
    (s : SummaryFeedbackButton.State) (err : String)
    (reload : Outcome (Option SummaryFeedbackButton.Response))
    (hauth : p.isAuthenticated = true) (hsub : s.submitting = false) :
    SummaryFeedbackButton.run { props := p, state := s, pending := [], trace := [] }
        ([SummaryFeedbackButton.Event.textSubmitClick,
            SummaryFeedbackButton.Event.textSubmitSettled p (Outcome.resolved ())]
          ++ (if callbackReturns p.onFeedbackSubmitted
              then [SummaryFeedbackButton.Event.reloadSettled reload] else []))
      = some
        { props := p
          state := (runJs (SummaryFeedbackButton.handleTextSubmit p (Outcome.resolved ())
            reload) s).2.state
          pending := []
          trace := (runJs (SummaryFeedbackButton.handleTextSubmit p (Outcome.resolved ())
            reload) s).2.trace }
    ∧ SummaryFeedbackButton.run { props := p, state := s, pending := [], trace := [] }
        [SummaryFeedbackButton.Event.textSubmitClick,
          SummaryFeedbackButton.Event.textSubmitSettled p (Outcome.rejected err)]
      = some
        { props := p
          state := (runJs (SummaryFeedbackButton.handleTextSubmit p (Outcome.rejected err)
            reload) s).2.state
          pending := []
          trace := (runJs (SummaryFeedbackButton.handleTextSubmit p (Outcome.rejected err)
            reload) s).2.trace } := by
  obtain ⟨a, rt, rid, cb⟩ := p
  obtain ⟨u, ft, sh, sb, stt, l, sd⟩ := s
  simp only [] at hauth hsub
  subst hauth
  subst hsub
  constructor
  · rcases cb with _ | _ | e <;>
      simp only [callbackReturns, SummaryFeedbackButton.run, SummaryFeedbackButton.step,
        SummaryFeedbackButton.handleTextSubmitStart, List.nil_append, List.mem_singleton,
        List.erase_cons_head, List.cons_append, List.append_nil, Bool.not_true,
        Bool.false_eq_true, if_false, if_true] <;>
      rcases reload with ⟨_ | ⟨_ | uf, _ | st⟩⟩ | e2 <;> rfl
  · simp only [SummaryFeedbackButton.run, SummaryFeedbackButton.step,
      SummaryFeedbackButton.handleTextSubmitStart, List.nil_append, List.mem_singleton,
      List.erase_cons_head, Bool.not_true, Bool.false_eq_true, if_false, if_true]
    rfl

/-- Summary widget: the effect's load, settled before anything else happens,
is the run-to-completion `loadFeedback`. -/
theorem summary_load_agrees (p : SummaryFeedbackButton.Props)
    (s : SummaryFeedbackButton.State) (o : Outcome (Option SummaryFeedbackButton.Response))
    (ha : p.isAuthenticated = true) :
    SummaryFeedbackButton.run
        (SummaryFeedbackButton.loadFeedbackStart
          { props := p, state := s, pending := [], trace := [] } p
          SummaryFeedbackButton.Pending.loadFeedback)
        [SummaryFeedbackButton.Event.loadSettled o]
      = some
        { props := p
          state := (runJs (SummaryFeedbackButton.loadFeedback p o) s).2.state
          pending := []
          trace := (runJs (SummaryFeedbackButton.loadFeedback p o) s).2.trace } := by
  obtain ⟨a, rt, rid, cb⟩ := p
  obtain ⟨u, ft, sh, sb, stt, l, sd⟩ := s
  simp only [] at ha
  subst ha
  rcases o with ⟨_ | ⟨_ | uf, _ | st⟩⟩ | er <;> rfl

/-! ## The claims -/

/-- C1, counterexample.  Message widget, no prior feedback, a callback that
throws: the thumbs_up click issues `submitChatFeedback` with rating thumbs_up,
the call resolves, the callback is invoked and throws inside the `try`, and
the `catch` block restores the rating: `userRating` ends as none, not
thumbs_up. -/
theorem chat_rating_click_contract_counterexample :
    ((runJs (ChatFeedbackButton.handleRatingClick ⟨true, "X", some (Callback.throws "boom")⟩
        Rating.thumbs_up (Outcome.resolved ())) ChatFeedbackButton.State.initial).2.trace
        = [Effect.submitChatFeedback "X" (some Rating.thumbs_up), Effect.onFeedbackSubmitted,
            Effect.consoleError "Error submitting chat feedback:"])
    ∧ ((runJs (ChatFeedbackButton.handleRatingClick ⟨true, "X", some (Callback.throws "boom")⟩
        Rating.thumbs_up (Outcome.resolved ())) ChatFeedbackButton.State.initial).2.state
        = { userRating := none, submitting := false, loading := false, submitted := true }) :=
  ⟨rfl, rfl⟩

/-- C1, amended.  In the message widget, a rating click in an authenticated,
non-submitting state issues exactly one feedback-client call,
`submitChatFeedback` with `message_id = messageId` and the toggled rating
(none when the clicked rating equals the current one, the clicked rating
otherwise), and the handler returns normally; when that call resolves, the
handler ends with `submitted = true` and `submitting = false`, the parent
callback has been invoked once if one was provided (and not at all otherwise),
and `userRating` is the toggled rating provided the callback is absent or
returns normally; when the callback throws, `userRating` is what it was before
the click. -/
theorem chat_rating_click_contract (p : ChatFeedbackButton.Props)
    (s : ChatFeedbackButton.State) (c : Rating) (o : Outcome Unit)
    (hauth : p.isAuthenticated = true) (hsub : s.submitting = false) :
    ((runJs (ChatFeedbackButton.handleRatingClick p c o) s).2.trace.filter Effect.isClientCall
        = [Effect.submitChatFeedback p.messageId (if s.userRating = some c then none else some c)])
    ∧ (runJs (ChatFeedbackButton.handleRatingClick p c o) s).1 = Except.ok ()
    ∧ (∀ v : Unit, o = Outcome.resolved v →
        (runJs (ChatFeedbackButton.handleRatingClick p c o) s).2.state.submitted = true
        ∧ (runJs (ChatFeedbackButton.handleRatingClick p c o) s).2.state.submitting = false
        ∧ (runJs (ChatFeedbackButton.handleRatingClick p c o) s).2.trace.countP Effect.isCallback
            = (if p.onFeedbackSubmitted.isSome then 1 else 0)
        ∧ (callbackReturns p.onFeedbackSubmitted = true →
            (runJs (ChatFeedbackButton.handleRatingClick p c o) s).2.state
              = { s with
                  userRating := if s.userRating = some c then none else some c
                  submitted := true
                  submitting := false })
        ∧ (∀ e : String, p.onFeedbackSubmitted = some (Callback.throws e) →
            (runJs (ChatFeedbackButton.handleRatingClick p c o) s).2.state.userRating
              = s.userRating)) := by
  obtain ⟨a, m, cb⟩ := p
  obtain ⟨u, sb, l, sd⟩ := s
  subst hauth
  subst hsub
  refine ⟨?_, ?_, ?_⟩
  · rcases cb with _ | _ | e <;> cases o <;> rfl
  · rcases cb with _ | _ | e <;> cases o <;> rfl
  · intro v hv
    subst hv
    rcases cb with _ | _ | e
    · refine ⟨rfl, rfl, rfl, fun _ => rfl, ?_⟩
      intro e h
      cases h
    · refine ⟨rfl, rfl, rfl, fun _ => rfl, ?_⟩
      intro e h
      cases h
    · refine ⟨rfl, rfl, rfl, ?_, fun _ _ => rfl⟩
      intro h
      cases h

/-- Scenario 7 of the specification: no prior feedback, a click on thumbs_up,
with a callback that returns. -/
theorem chat_rating_click_contract_witness :
    ((runJs (ChatFeedbackButton.handleRatingClick ⟨true, "X", some Callback.returns⟩
        Rating.thumbs_up (Outcome.resolved ())) ChatFeedbackButton.State.initial).2.trace.filter
          Effect.isClientCall
        = [Effect.submitChatFeedback "X" (some Rating.thumbs_up)])
    ∧ (runJs (ChatFeedbackButton.handleRatingClick ⟨true, "X", some Callback.returns⟩
        Rating.thumbs_up (Outcome.resolved ())) ChatFeedbackButton.State.initial).2.state
        = { userRating := some Rating.thumbs_up, submitting := false, loading := false,
            submitted := true } :=
  ⟨(chat_rating_click_contract ⟨true, "X", some Callback.returns⟩
      ChatFeedbackButton.State.initial Rating.thumbs_up (Outcome.resolved ()) rfl rfl).1,
   ((chat_rating_click_contract ⟨true, "X", some Callback.returns⟩
      ChatFeedbackButton.State.initial Rating.thumbs_up (Outcome.resolved ())
      rfl rfl).2.2 () rfl).2.2.2.1 rfl⟩

/-- C2. Revert law, both widgets: in an authenticated, non-submitting state,
when the submit call of a rating click rejects, the handler returns normally
(no exception escapes), `userRating` is what it was before the click and
`submitting` is false; in fact the whole state is what it was before. -/
theorem rating_click_revert (pc : ChatFeedbackButton.Props) (sc : ChatFeedbackButton.State)
    (ps : SummaryFeedbackButton.Props) (ss : SummaryFeedbackButton.State)
    (c : Rating) (err : String) (reload : Outcome (Option SummaryFeedbackButton.Response))
    (hcauth : pc.isAuthenticated = true) (hcsub : sc.submitting = false)
    (hsauth : ps.isAuthenticated = true) (hssub : ss.submitting = false) :
    ((runJs (ChatFeedbackButton.handleRatingClick pc c (Outcome.rejected err)) sc).1
        = Except.ok ()
      ∧ (runJs (ChatFeedbackButton.handleRatingClick pc c (Outcome.rejected err)) sc).2.state.userRating
        = sc.userRating
      ∧ (runJs (ChatFeedbackButton.handleRatingClick pc c (Outcome.rejected err)) sc).2.state.submitting
        = false
      ∧ (runJs (ChatFeedbackButton.handleRatingClick pc c (Outcome.rejected err)) sc).2.state = sc)
    ∧ ((runJs (SummaryFeedbackButton.handleRatingClick ps c (Outcome.rejected err) reload) ss).1
        = Except.ok ()
      ∧ (runJs (SummaryFeedbackButton.handleRatingClick ps c (Outcome.rejected err) reload)
          ss).2.state.userRating = ss.userRating
      ∧ (runJs (SummaryFeedbackButton.handleRatingClick ps c (Outcome.rejected err) reload)
          ss).2.state.submitting = false
      ∧ (runJs (SummaryFeedbackButton.handleRatingClick ps c (Outcome.rejected err) reload)
          ss).2.state = ss) := by
  obtain ⟨a, m, cb⟩ := pc
  obtain ⟨u, sb, l, sd⟩ := sc
  obtain ⟨a2, rt, rid, cb2⟩ := ps
  obtain ⟨u2, ft, sh, sb2, stt, l2, sd2⟩ := ss
  subst hcauth
  subst hcsub
  subst hsauth
  subst hssub
  exact ⟨⟨rfl, rfl, rfl, rfl⟩, ⟨rfl, rfl, rfl, rfl⟩⟩

/-- A rejected thumbs_down click on a thumbs_up rating, in both widgets. -/
theorem rating_click_revert_witness :
    (runJs (ChatFeedbackButton.handleRatingClick ⟨true, "m1", none⟩ Rating.thumbs_down
        (Outcome.rejected "503")) ⟨some Rating.thumbs_up, false, false, true⟩).2.state.userRating
      = some Rating.thumbs_up
    ∧ (runJs (SummaryFeedbackButton.handleRatingClick ⟨true, "judgment", "42", none⟩
        Rating.thumbs_down (Outcome.rejected "503") (Outcome.rejected "503"))
        ⟨some Rating.thumbs_up, "", false, false, none, false, true⟩).2.state.userRating
      = some Rating.thumbs_up :=
  ⟨(rating_click_revert ⟨true, "m1", none⟩ ⟨some Rating.thumbs_up, false, false, true⟩
      ⟨true, "judgment", "42", none⟩ ⟨some Rating.thumbs_up, "", false, false, none, false, true⟩
      Rating.thumbs_down "503" (Outcome.rejected "503") rfl rfl rfl rfl).1.2.1,
   (rating_click_revert ⟨true, "m1", none⟩ ⟨some Rating.thumbs_up, false, false, true⟩
      ⟨true, "judgment", "42", none⟩ ⟨some Rating.thumbs_up, "", false, false, none, false, true⟩
      Rating.thumbs_down "503" (Outcome.rejected "503") rfl rfl rfl rfl).2.2.1⟩

/-- C7. Unauthenticated rating click: in both widgets the handler issues no
feedback-client call and leaves the state as it was; the summary widget raises
exactly one alert and the message widget none (it does nothing at all). -/
theorem unauthenticated_rating_click (pc : ChatFeedbackButton.Props)
    (sc : ChatFeedbackButton.State) (ps : SummaryFeedbackButton.Props)
    (ss : SummaryFeedbackButton.State) (c : Rating) (o : Outcome Unit)
    (reload : Outcome (Option SummaryFeedbackButton.Response))
    (hc : pc.isAuthenticated = false) (hs : ps.isAuthenticated = false) :
    ((runJs (ChatFeedbackButton.handleRatingClick pc c o) sc).2.state = sc
      ∧ (runJs (ChatFeedbackButton.handleRatingClick pc c o) sc).2.trace = [])
    ∧ ((runJs (SummaryFeedbackButton.handleRatingClick ps c o reload) ss).2.state = ss
      ∧ (runJs (SummaryFeedbackButton.handleRatingClick ps c o reload) ss).2.trace.filter
          Effect.isClientCall = []
      ∧ (runJs (SummaryFeedbackButton.handleRatingClick ps c o reload) ss).2.trace.countP
          Effect.isAlert = 1
      ∧ (runJs (SummaryFeedbackButton.handleRatingClick ps c o reload) ss).2.trace
          = [Effect.alert "Please login to provide feedback"]) := by
  obtain ⟨a, m, cb⟩ := pc
  obtain ⟨a2, rt, rid, cb2⟩ := ps
  subst hc
  subst hs
  exact ⟨⟨rfl, rfl⟩, ⟨rfl, rfl, rfl, rfl⟩⟩

/-- An unauthenticated thumbs_up click on both widgets. -/
theorem unauthenticated_rating_click_witness :
    (runJs (ChatFeedbackButton.handleRatingClick ⟨false, "m1", some Callback.returns⟩ Rating.thumbs_up
        (Outcome.resolved ())) ChatFeedbackButton.State.initial).2.trace = []
    ∧ (runJs (SummaryFeedbackButton.handleRatingClick ⟨false, "judgment", "42", some Callback.returns⟩
        Rating.thumbs_up (Outcome.resolved ()) (Outcome.resolved none))
        SummaryFeedbackButton.State.initial).2.trace
      = [Effect.alert "Please login to provide feedback"] :=
  ⟨(unauthenticated_rating_click ⟨false, "m1", some Callback.returns⟩ ChatFeedbackButton.State.initial
      ⟨false, "judgment", "42", some Callback.returns⟩ SummaryFeedbackButton.State.initial Rating.thumbs_up
      (Outcome.resolved ()) (Outcome.resolved none) rfl rfl).1.2,
   (unauthenticated_rating_click ⟨false, "m1", some Callback.returns⟩ ChatFeedbackButton.State.initial
      ⟨false, "judgment", "42", some Callback.returns⟩ SummaryFeedbackButton.State.initial Rating.thumbs_up
      (Outcome.resolved ()) (Outcome.resolved none) rfl rfl).2.2.2.2⟩

/-- C8. Text submission in the summary widget, from an authenticated,
non-submitting state: exactly one `submitSummaryFeedback` call is issued, with
the current reference, the current `userRating` and `feedback_text` equal to
`feedbackText`, or null when that is empty; the handler returns normally; when
the call resolves, `submitted` is true, the panel is closed and `submitting` is
false, whatever the re-fetch does; when it rejects, the state is what it was
(`userRating`, `feedbackText`, `showTextInput` unchanged, `submitting` false)
and exactly one alert is raised. -/
theorem text_submit_contract (p : SummaryFeedbackButton.Props)
    (s : SummaryFeedbackButton.State) (o : Outcome Unit)
    (reload : Outcome (Option SummaryFeedbackButton.Response))
    (hauth : p.isAuthenticated = true) (hsub : s.submitting = false) :
    ((runJs (SummaryFeedbackButton.handleTextSubmit p o reload) s).2.trace.filter
        Effect.isSubmitCall
        = [Effect.submitSummaryFeedback p.referenceType p.referenceId s.userRating
            (if s.feedbackText = "" then none else some s.feedbackText)])
    ∧ (runJs (SummaryFeedbackButton.handleTextSubmit p o reload) s).1 = Except.ok ()
    ∧ (runJs (SummaryFeedbackButton.handleTextSubmit p o reload) s).2.state.submitting = false
    ∧ (∀ v : Unit, o = Outcome.resolved v →
        (runJs (SummaryFeedbackButton.handleTextSubmit p o reload) s).2.state.submitted = true
        ∧ (runJs (SummaryFeedbackButton.handleTextSubmit p o reload) s).2.state.showTextInput
            = false)
    ∧ (∀ err : String, o = Outcome.rejected err →
        (runJs (SummaryFeedbackButton.handleTextSubmit p o reload) s).2.state = s
        ∧ (runJs (SummaryFeedbackButton.handleTextSubmit p o reload) s).2.trace.countP
            Effect.isAlert = 1) := by
  obtain ⟨a, rt, rid, cb⟩ := p
  obtain ⟨u, ft, sh, sb, stt, l, sd⟩ := s
  subst hauth
  subst hsub
  refine ⟨?_, ?_, ?_, ?_, ?_⟩
  · rcases o with v | err
    · rcases cb with _ | _ | e2 <;> rcases reload with ⟨_ | ⟨_ | uf, _ | st⟩⟩ | e <;> rfl
    · rfl
  · rcases o with v | err
    · rcases cb with _ | _ | e2 <;> rcases reload with ⟨_ | ⟨_ | uf, _ | st⟩⟩ | e <;> rfl
    · rfl
  · rcases o with v | err
    · rcases cb with _ | _ | e2 <;> rcases reload with ⟨_ | ⟨_ | uf, _ | st⟩⟩ | e <;> rfl
    · rfl
  · intro v hv
    subst hv
    rcases cb with _ | _ | e2 <;> rcases reload with ⟨_ | ⟨_ | uf, _ | st⟩⟩ | e <;>
      exact ⟨rfl, rfl⟩
  · intro err hv
    subst hv
    exact ⟨rfl, rfl⟩

/-- A text-only submission with no rating selected, resolved and re-fetched. -/
theorem text_submit_contract_witness :
    (runJs (SummaryFeedbackButton.handleTextSubmit ⟨true, "judgment", "42", some Callback.returns⟩
        (Outcome.resolved ()) (Outcome.resolved none))
        ⟨none, "clear and short", true, false, none, false, false⟩).2.trace.filter
          Effect.isSubmitCall
      = [Effect.submitSummaryFeedback "judgment" "42" none (some "clear and short")]
    ∧ (runJs (SummaryFeedbackButton.handleTextSubmit ⟨true, "judgment", "42", some Callback.returns⟩
        (Outcome.resolved ()) (Outcome.resolved none))
        ⟨none, "clear and short", true, false, none, false, false⟩).2.state.showTextInput
      = false :=
  ⟨(text_submit_contract ⟨true, "judgment", "42", some Callback.returns⟩
      ⟨none, "clear and short", true, false, none, false, false⟩
      (Outcome.resolved ()) (Outcome.resolved none) rfl rfl).1,
   ((text_submit_contract ⟨true, "judgment", "42", some Callback.returns⟩
      ⟨none, "clear and short", true, false, none, false, false⟩
      (Outcome.resolved ()) (Outcome.resolved none) rfl rfl).2.2.2.1 () rfl).2⟩

/-- C9. Statistics display in the summary widget: for an authenticated viewer
the component renders, and the statistics line is present exactly when
`statistics` is present with `total_feedback > 0`; its text is then the
thumbs-up count, " of ", the total and " found this helpful". -/
theorem statistics_line_shown_iff (p : SummaryFeedbackButton.Props)
    (s : SummaryFeedbackButton.State) (hauth : p.isAuthenticated = true) :
    ∃ v : SummaryFeedbackButton.View, SummaryFeedbackButton.render p s = some v
      ∧ (v.statisticsLine.isSome = true ↔
          ∃ st : Statistics, s.statistics = some st ∧ st.total_feedback > 0)
      ∧ (∀ st : Statistics, s.statistics = some st → st.total_feedback > 0 →
          v.statisticsLine = some (toString st.thumbs_up_count ++ " of "
            ++ toString st.total_feedback ++ " found this helpful")) := by
  obtain ⟨a, rt, rid, cb⟩ := p
  obtain ⟨u, ft, sh, sb, stt, l, sd⟩ := s
  subst hauth
  refine ⟨_, rfl, ?_, ?_⟩
  · cases stt with
    | none => simp [SummaryFeedbackButton.statisticsLine]
    | some st =>
      by_cases h : st.total_feedback > 0 <;> simp [SummaryFeedbackButton.statisticsLine, h]
  · intro st hst hpos
    simp only [] at hst
    subst hst
    simp [SummaryFeedbackButton.statisticsLine, hpos]

/-- Scenario 8 of the specification: statistics `{thumbs_up_count: 3,
total_feedback: 5}` are shown as "3 of 5 found this helpful". -/
theorem statistics_line_shown_iff_witness :
    ∃ v : SummaryFeedbackButton.View,
      SummaryFeedbackButton.render ⟨true, "judgment", "42", none⟩
        ⟨none, "", false, false, some ⟨3, 5⟩, false, false⟩ = some v
      ∧ v.statisticsLine = some "3 of 5 found this helpful" := by
  obtain ⟨v, hv, _, h⟩ := statistics_line_shown_iff ⟨true, "judgment", "42", none⟩
    ⟨none, "", false, false, some ⟨3, 5⟩, false, false⟩ rfl
  exact ⟨v, hv, (h ⟨3, 5⟩ rfl (by decide)).trans (by decide)⟩

/-- C3, counterexample.  Message widget: starting from `userRating =
thumbs_up`, two successive successful clicks on thumbs_up end with
`userRating = thumbs_up`, not none (the calls carry none, then thumbs_up).
Summary widget: starting from no rating, when the re-fetch after the first
click succeeds but reports thumbs_down, the second click on thumbs_up submits
thumbs_up, not none, and `userRating` ends as thumbs_up.  Message widget with
a callback that throws: starting from no rating, each resolved click is undone
by the `catch` block, so both clicks submit thumbs_up. -/
theorem toggle_twice_counterexample :
    ((runJs (ChatFeedbackButton.handleRatingClick ⟨true, "m1", none⟩ Rating.thumbs_up
        (Outcome.resolved ()))
        (runJs (ChatFeedbackButton.handleRatingClick ⟨true, "m1", none⟩ Rating.thumbs_up
          (Outcome.resolved ())) ⟨some Rating.thumbs_up, false, false, true⟩).2.state).2.state.userRating
      = some Rating.thumbs_up)
    ∧ ((runJs (SummaryFeedbackButton.handleRatingClick ⟨true, "judgment", "42", none⟩
        Rating.thumbs_up (Outcome.resolved ()) (Outcome.resolved none))
        (runJs (SummaryFeedbackButton.handleRatingClick ⟨true, "judgment", "42", none⟩
          Rating.thumbs_up (Outcome.resolved ())
          (Outcome.resolved (some ⟨some ⟨some Rating.thumbs_down, none⟩, none⟩)))
          SummaryFeedbackButton.State.initial).2.state).2.trace.filterMap Effect.submittedRating
      = [some Rating.thumbs_up])
    ∧ ((runJs (SummaryFeedbackButton.handleRatingClick ⟨true, "judgment", "42", none⟩
        Rating.thumbs_up (Outcome.resolved ()) (Outcome.resolved none))
        (runJs (SummaryFeedbackButton.handleRatingClick ⟨true, "judgment", "42", none⟩
          Rating.thumbs_up (Outcome.resolved ())
          (Outcome.resolved (some ⟨some ⟨some Rating.thumbs_down, none⟩, none⟩)))
          SummaryFeedbackButton.State.initial).2.state).2.state.userRating
      = some Rating.thumbs_up)
    ∧ (((runJs (ChatFeedbackButton.handleRatingClick ⟨true, "m1", some (Callback.throws "boom")⟩
          Rating.thumbs_up (Outcome.resolved ())) ChatFeedbackButton.State.initial).2.trace
        ++ (runJs (ChatFeedbackButton.handleRatingClick
              ⟨true, "m1", some (Callback.throws "boom")⟩ Rating.thumbs_up (Outcome.resolved ()))
            (runJs (ChatFeedbackButton.handleRatingClick
                ⟨true, "m1", some (Callback.throws "boom")⟩ Rating.thumbs_up
                (Outcome.resolved ())) ChatFeedbackButton.State.initial).2.state).2.trace).filterMap
          Effect.submittedRating
      = [some Rating.thumbs_up, some Rating.thumbs_up]) :=
  ⟨rfl, rfl, rfl, rfl⟩

/-- C3, amended.  Toggle law, both widgets: from an authenticated,
non-submitting state whose `userRating` is not `r`, with a parent callback
that is absent or returns normally, two successive clicks on `r`, each submit
resolving (and, in the summary widget, each re-fetch failing, carrying no
`user_feedback`, or reporting the rating just submitted), issue exactly two
submit calls, the first with rating `r` and the second with rating none, and
leave `userRating = none`. -/
theorem toggle_twice (pc : ChatFeedbackButton.Props) (sc : ChatFeedbackButton.State)
    (ps : SummaryFeedbackButton.Props) (ss : SummaryFeedbackButton.State) (r : Rating)
    (reload1 reload2 : Outcome (Option SummaryFeedbackButton.Response))
    (hcauth : pc.isAuthenticated = true) (hcsub : sc.submitting = false)
    (hcr : sc.userRating ≠ some r)
    (hccb : callbackReturns pc.onFeedbackSubmitted = true)
    (hsauth : ps.isAuthenticated = true) (hssub : ss.submitting = false)
    (hsr : ss.userRating ≠ some r)
    (hscb : callbackReturns ps.onFeedbackSubmitted = true)
    (h1 : SummaryFeedbackButton.confirms reload1 (some r) = true)
    (h2 : SummaryFeedbackButton.confirms reload2 none = true) :
    (((runJs (ChatFeedbackButton.handleRatingClick pc r (Outcome.resolved ())) sc).2.trace
        ++ (runJs (ChatFeedbackButton.handleRatingClick pc r (Outcome.resolved ()))
            (runJs (ChatFeedbackButton.handleRatingClick pc r (Outcome.resolved ()))
              sc).2.state).2.trace).filterMap Effect.submittedRating = [some r, none]
      ∧ (runJs (ChatFeedbackButton.handleRatingClick pc r (Outcome.resolved ()))
          (runJs (ChatFeedbackButton.handleRatingClick pc r (Outcome.resolved ()))
            sc).2.state).2.state.userRating = none)
    ∧ (((runJs (SummaryFeedbackButton.handleRatingClick ps r (Outcome.resolved ()) reload1)
          ss).2.trace
        ++ (runJs (SummaryFeedbackButton.handleRatingClick ps r (Outcome.resolved ()) reload2)
            (runJs (SummaryFeedbackButton.handleRatingClick ps r (Outcome.resolved ()) reload1)
              ss).2.state).2.trace).filterMap Effect.submittedRating = [some r, none]
      ∧ (runJs (SummaryFeedbackButton.handleRatingClick ps r (Outcome.resolved ()) reload2)
          (runJs (SummaryFeedbackButton.handleRatingClick ps r (Outcome.resolved ()) reload1)
            ss).2.state).2.state.userRating = none) := by
  constructor
  · rw [chat_click_resolved pc sc r hcauth hcsub hccb]
    rw [chat_click_resolved pc _ r hcauth rfl hccb]
    cases pc.onFeedbackSubmitted <;> simp [hcr, Effect.submittedRating]
  · obtain ⟨-, hu1, hb1, -, ht1, -⟩ := summary_click_resolved ps ss r reload1 hsauth hssub hscb
    have hu1r : (runJs (SummaryFeedbackButton.handleRatingClick ps r (Outcome.resolved ()) reload1)
        ss).2.state.userRating = some r := by
      rw [hu1]
      rcases reload1 with ⟨_ | ⟨_ | uf, st⟩⟩ | e
      · simp [SummaryFeedbackButton.reportedRating, hsr]
      · simp [SummaryFeedbackButton.reportedRating, hsr]
      · simpa [SummaryFeedbackButton.reportedRating, SummaryFeedbackButton.confirms] using h1
      · simp [SummaryFeedbackButton.reportedRating, hsr]
    obtain ⟨-, hu2, -, -, ht2, -⟩ := summary_click_resolved ps _ r reload2 hsauth hb1 hscb
    rw [hu1r] at hu2 ht2
    simp only [if_true] at hu2 ht2
    refine ⟨?_, ?_⟩
    · rw [List.filterMap_append, submittedRating_filter, ht1,
        submittedRating_filter
          (runJs (SummaryFeedbackButton.handleRatingClick ps r (Outcome.resolved ()) reload2)
            _).2.trace, ht2]
      simp [hsr, Effect.submittedRating]
    · rw [hu2]
      rcases reload2 with ⟨_ | ⟨_ | uf, st⟩⟩ | e
      · simp [SummaryFeedbackButton.reportedRating]
      · simp [SummaryFeedbackButton.reportedRating]
      · simpa [SummaryFeedbackButton.reportedRating, SummaryFeedbackButton.confirms] using h2
      · simp [SummaryFeedbackButton.reportedRating]

/-- Two thumbs_up clicks from no rating, in both widgets; the summary
re-fetches report thumbs_up and then a cleared rating. -/
theorem toggle_twice_witness :
    (runJs (ChatFeedbackButton.handleRatingClick ⟨true, "m1", some Callback.returns⟩ Rating.thumbs_up
        (Outcome.resolved ()))
        (runJs (ChatFeedbackButton.handleRatingClick ⟨true, "m1", some Callback.returns⟩ Rating.thumbs_up
          (Outcome.resolved ())) ChatFeedbackButton.State.initial).2.state).2.state.userRating
      = none
    ∧ (runJs (SummaryFeedbackButton.handleRatingClick ⟨true, "judgment", "42", some Callback.returns⟩
        Rating.thumbs_up (Outcome.resolved ())
        (Outcome.resolved (some ⟨some ⟨none, none⟩, some ⟨0, 1⟩⟩)))
        (runJs (SummaryFeedbackButton.handleRatingClick ⟨true, "judgment", "42", some Callback.returns⟩
          Rating.thumbs_up (Outcome.resolved ())
          (Outcome.resolved (some ⟨some ⟨some Rating.thumbs_up, none⟩, some ⟨1, 1⟩⟩)))
          SummaryFeedbackButton.State.initial).2.state).2.state.userRating
      = none :=
  ⟨(toggle_twice ⟨true, "m1", some Callback.returns⟩ ChatFeedbackButton.State.initial
      ⟨true, "judgment", "42", some Callback.returns⟩ SummaryFeedbackButton.State.initial Rating.thumbs_up
      (Outcome.resolved (some ⟨some ⟨some Rating.thumbs_up, none⟩, some ⟨1, 1⟩⟩))
      (Outcome.resolved (some ⟨some ⟨none, none⟩, some ⟨0, 1⟩⟩))
      rfl rfl (by decide) rfl rfl rfl (by decide) rfl rfl rfl).1.2,
   (toggle_twice ⟨true, "m1", some Callback.returns⟩ ChatFeedbackButton.State.initial
      ⟨true, "judgment", "42", some Callback.returns⟩ SummaryFeedbackButton.State.initial Rating.thumbs_up
      (Outcome.resolved (some ⟨some ⟨some Rating.thumbs_up, none⟩, some ⟨1, 1⟩⟩))
      (Outcome.resolved (some ⟨some ⟨none, none⟩, some ⟨0, 1⟩⟩))
      rfl rfl (by decide) rfl rfl rfl (by decide) rfl rfl rfl).2.2⟩

/-- C10, counterexample.  In the freshly mounted, authenticated state neither
rating control is rendered as active, in either widget, so it is not the case
that exactly one is; and in the summary widget a resolved thumbs_down click on
a thumbs_up rating leaves `userRating = thumbs_up` when the re-fetch reports
thumbs_up; so does one in the message widget when the callback throws. -/
theorem rating_exclusive_counterexample :
    ((ChatFeedbackButton.render ⟨true, "m1", none⟩ ChatFeedbackButton.State.initial).map
        (fun v => (v.upActive, v.downActive)) = some (false, false))
    ∧ ((SummaryFeedbackButton.render ⟨true, "judgment", "42", none⟩
        SummaryFeedbackButton.State.initial).map
        (fun v => (v.upActive, v.downActive)) = some (false, false))
    ∧ ((runJs (SummaryFeedbackButton.handleRatingClick ⟨true, "judgment", "42", none⟩
        Rating.thumbs_down (Outcome.resolved ())
        (Outcome.resolved (some ⟨some ⟨some Rating.thumbs_up, none⟩, none⟩)))
        ⟨some Rating.thumbs_up, "", false, false, none, false, true⟩).2.state.userRating
      = some Rating.thumbs_up)
    ∧ ((runJs (ChatFeedbackButton.handleRatingClick ⟨true, "m1", some (Callback.throws "boom")⟩
        Rating.thumbs_down (Outcome.resolved ()))
        ⟨some Rating.thumbs_up, false, false, true⟩).2.state.userRating
      = some Rating.thumbs_up) :=
  ⟨rfl, rfl, rfl, rfl⟩

/-- C10, amended.  Exclusivity, both widgets: when `userRating = thumbs_up`, a
resolved click on thumbs_down submits rating thumbs_down and leaves
`userRating = thumbs_down`, provided the parent callback is absent or returns
normally (and, in the summary widget, the re-fetch fails, carries no
`user_feedback` or reports thumbs_down); and in every authenticated
state the thumbs_up control is rendered active iff `userRating = thumbs_up`,
the thumbs_down control iff `userRating = thumbs_down`, so that at most one of
the two is active, never both, and neither is when there is no rating. -/
theorem rating_exclusive (pc : ChatFeedbackButton.Props) (sc : ChatFeedbackButton.State)
    (ps : SummaryFeedbackButton.Props) (ss : SummaryFeedbackButton.State)
    (reload : Outcome (Option SummaryFeedbackButton.Response))
    (hcauth : pc.isAuthenticated = true) (hcsub : sc.submitting = false)
    (hcu : sc.userRating = some Rating.thumbs_up)
    (hccb : callbackReturns pc.onFeedbackSubmitted = true)
    (hsauth : ps.isAuthenticated = true) (hssub : ss.submitting = false)
    (hsu : ss.userRating = some Rating.thumbs_up)
    (hscb : callbackReturns ps.onFeedbackSubmitted = true)
    (hre : SummaryFeedbackButton.confirms reload (some Rating.thumbs_down) = true) :
    ((runJs (ChatFeedbackButton.handleRatingClick pc Rating.thumbs_down (Outcome.resolved ()))
        sc).2.trace.filterMap Effect.submittedRating = [some Rating.thumbs_down]
      ∧ (runJs (ChatFeedbackButton.handleRatingClick pc Rating.thumbs_down (Outcome.resolved ()))
        sc).2.state.userRating = some Rating.thumbs_down)
    ∧ ((runJs (SummaryFeedbackButton.handleRatingClick ps Rating.thumbs_down
        (Outcome.resolved ()) reload) ss).2.trace.filterMap Effect.submittedRating
        = [some Rating.thumbs_down]
      ∧ (runJs (SummaryFeedbackButton.handleRatingClick ps Rating.thumbs_down
        (Outcome.resolved ()) reload) ss).2.state.userRating = some Rating.thumbs_down)
    ∧ (∀ s : ChatFeedbackButton.State, ∃ v : ChatFeedbackButton.View,
        ChatFeedbackButton.render pc s = some v
        ∧ (v.upActive = true ↔ s.userRating = some Rating.thumbs_up)
        ∧ (v.downActive = true ↔ s.userRating = some Rating.thumbs_down)
        ∧ ¬ (v.upActive = true ∧ v.downActive = true)
        ∧ (s.userRating = none → v.upActive = false ∧ v.downActive = false))
    ∧ (∀ s : SummaryFeedbackButton.State, ∃ v : SummaryFeedbackButton.View,
        SummaryFeedbackButton.render ps s = some v
        ∧ (v.upActive = true ↔ s.userRating = some Rating.thumbs_up)
        ∧ (v.downActive = true ↔ s.userRating = some Rating.thumbs_down)
        ∧ ¬ (v.upActive = true ∧ v.downActive = true)
        ∧ (s.userRating = none → v.upActive = false ∧ v.downActive = false)) := by
  refine ⟨?_, ?_, ?_, ?_⟩
  · rw [chat_click_resolved pc sc _ hcauth hcsub hccb]
    cases pc.onFeedbackSubmitted <;> simp [hcu, Effect.submittedRating]
  · obtain ⟨-, hu, -, -, ht, -⟩ :=
      summary_click_resolved ps ss Rating.thumbs_down reload hsauth hssub hscb
    refine ⟨?_, ?_⟩
    · rw [submittedRating_filter, ht]
      simp [hsu, Effect.submittedRating]
    · rw [hu]
      rcases reload with ⟨_ | ⟨_ | uf, st⟩⟩ | e
      · simp [SummaryFeedbackButton.reportedRating, hsu]
      · simp [SummaryFeedbackButton.reportedRating, hsu]
      · simpa [SummaryFeedbackButton.reportedRating, SummaryFeedbackButton.confirms] using hre
      · simp [SummaryFeedbackButton.reportedRating, hsu]
  · intro s
    obtain ⟨a, m, cb⟩ := pc
    simp only [] at hcauth
    subst hcauth
    refine ⟨_, rfl, ?_⟩
    rcases s with ⟨_ | _ | _, sb, l, sd⟩ <;> simp
  · intro s
    obtain ⟨a, rt, rid, cb⟩ := ps
    simp only [] at hsauth
    subst hsauth
    refine ⟨_, rfl, ?_⟩
    rcases s with ⟨_ | _ | _, ft, sh, sb, stt, l, sd⟩ <;> simp

/-- A thumbs_down click on a thumbs_up rating in both widgets, the summary
re-fetch reporting thumbs_down. -/
theorem rating_exclusive_witness :
    (runJs (ChatFeedbackButton.handleRatingClick ⟨true, "m1", none⟩ Rating.thumbs_down
        (Outcome.resolved ())) ⟨some Rating.thumbs_up, false, false, true⟩).2.state.userRating
      = some Rating.thumbs_down
    ∧ (runJs (SummaryFeedbackButton.handleRatingClick ⟨true, "judgment", "42", none⟩
        Rating.thumbs_down (Outcome.resolved ())
        (Outcome.resolved (some ⟨some ⟨some Rating.thumbs_down, none⟩, some ⟨0, 1⟩⟩)))
        ⟨some Rating.thumbs_up, "", false, false, none, false, true⟩).2.state.userRating
      = some Rating.thumbs_down :=
  ⟨(rating_exclusive ⟨true, "m1", none⟩ ⟨some Rating.thumbs_up, false, false, true⟩
      ⟨true, "judgment", "42", none⟩ ⟨some Rating.thumbs_up, "", false, false, none, false, true⟩
      (Outcome.resolved (some ⟨some ⟨some Rating.thumbs_down, none⟩, some ⟨0, 1⟩⟩))
      rfl rfl rfl rfl rfl rfl rfl rfl rfl).1.2,
   (rating_exclusive ⟨true, "m1", none⟩ ⟨some Rating.thumbs_up, false, false, true⟩
      ⟨true, "judgment", "42", none⟩ ⟨some Rating.thumbs_up, "", false, false, none, false, true⟩
      (Outcome.resolved (some ⟨some ⟨some Rating.thumbs_down, none⟩, some ⟨0, 1⟩⟩))
      rfl rfl rfl rfl rfl rfl rfl rfl rfl).2.1.2⟩

/-- C4, counterexample.  Summary widget: after mount, a thumbs_up click and the
resolution of its submit call, `submitting` is still true although no submit
is outstanding any more: the handler is waiting for its re-fetch. -/
theorem single_in_flight_submit_counterexample :
    (SummaryFeedbackButton.run (SummaryFeedbackButton.mount ⟨true, "j", "1", none⟩)
        [SummaryFeedbackButton.Event.loadSettled (Outcome.resolved none),
          SummaryFeedbackButton.Event.ratingClick Rating.thumbs_up,
          SummaryFeedbackButton.Event.ratingSubmitSettled ⟨true, "j", "1", none⟩ none
            (Outcome.resolved ())]).map
      (fun c => (c.state.submitting, c.submitsOutstanding, c.pending))
      = some (true, 0, [SummaryFeedbackButton.Pending.reloadFeedback]) := by
  decide

/-- C4, amended.  Single in-flight submit, both widgets: in every reachable
configuration at most one submit is outstanding; while `submitting` is true a
rating click (and, in the summary widget, a text submission) issues no
feedback-client call and leaves state and pending requests as they are; in the
message widget `submitting` is true exactly while a submit is outstanding, and
in the summary widget exactly while a submit, or the re-fetch its handler
awaits after the submit resolved, is outstanding. -/
theorem single_in_flight_submit (cc : ChatFeedbackButton.Config)
    (cs : SummaryFeedbackButton.Config) (r : Rating) (o : Outcome Unit)
    (reload : Outcome (Option SummaryFeedbackButton.Response))
    (hc : ChatFeedbackButton.Reachable cc) (hs : SummaryFeedbackButton.Reachable cs) :
    (cc.submitsOutstanding ≤ 1
      ∧ (cc.state.submitting = true ↔ cc.submitsOutstanding = 1)
      ∧ (cc.state.submitting = true →
          ChatFeedbackButton.step cc (ChatFeedbackButton.Event.click r) = some cc
          ∧ runJs (ChatFeedbackButton.handleRatingClick cc.props r o) cc.state
              = (Except.ok (), { state := cc.state, trace := [] })))
    ∧ (cs.submitsOutstanding ≤ 1
      ∧ (cs.state.submitting = true ↔ cs.submitsOutstanding + cs.reloadsOutstanding = 1)
      ∧ (cs.state.submitting = true →
          (∀ e, e = SummaryFeedbackButton.Event.ratingClick r
              ∨ e = SummaryFeedbackButton.Event.textSubmitClick →
            ∃ c2, SummaryFeedbackButton.step cs e = some c2
              ∧ c2.state = cs.state ∧ c2.pending = cs.pending
              ∧ c2.trace.filter Effect.isClientCall = cs.trace.filter Effect.isClientCall)
          ∧ (runJs (SummaryFeedbackButton.handleRatingClick cs.props r o reload)
              cs.state).2.state = cs.state
          ∧ (runJs (SummaryFeedbackButton.handleRatingClick cs.props r o reload)
              cs.state).2.trace.filter Effect.isClientCall = []
          ∧ (runJs (SummaryFeedbackButton.handleTextSubmit cs.props o reload)
              cs.state).2.state = cs.state
          ∧ (runJs (SummaryFeedbackButton.handleTextSubmit cs.props o reload)
              cs.state).2.trace.filter Effect.isClientCall = [])) := by
  have h1 := chat_reachable_submitting cc hc
  have h2 := summary_reachable_submitting cs hs
  refine ⟨⟨?_, ?_, ?_⟩, ⟨?_, ?_, ?_⟩⟩
  · rw [h1]
    split <;> omega
  · rw [h1]
    cases cc.state.submitting <;> simp
  · intro hsub
    refine ⟨?_, chat_click_ignored _ _ r o (Or.inr hsub)⟩
    simp only [ChatFeedbackButton.step, ChatFeedbackButton.handleRatingClickStart, hsub]
    cases cc.props.isAuthenticated <;> rfl
  · have : cs.submitsOutstanding ≤ cs.submitsOutstanding + cs.reloadsOutstanding :=
      Nat.le_add_right _ _
    rw [h2] at this
    split at this <;> omega
  · rw [h2]
    cases cs.state.submitting <;> simp
  · intro hsub
    obtain ⟨⟨g1, g2⟩, g3, g4⟩ :=
      summary_submitting_ignored cs.props cs.state r o reload hsub
    refine ⟨?_, g1, g2, g3, g4⟩
    intro e he
    rcases he with he | he <;> subst he
    · simp only [SummaryFeedbackButton.step, SummaryFeedbackButton.handleRatingClickStart, hsub]
      cases cs.props.isAuthenticated <;> simp [Effect.isClientCall]
    · simp only [SummaryFeedbackButton.step, SummaryFeedbackButton.handleTextSubmitStart, hsub]
      cases cs.props.isAuthenticated <;> simp [Effect.isClientCall]

/-- Both widgets with a thumbs_up submit under way: the message widget just
after the click, the summary widget waiting for the re-fetch that follows the
resolved submit. -/
theorem single_in_flight_submit_witness :
    ChatFeedbackButton.step
        { props := ⟨true, "m1", none⟩
          state := ⟨some Rating.thumbs_up, true, true, false⟩
          pending := [ChatFeedbackButton.Pending.loadFeedback,
            ChatFeedbackButton.Pending.handleRatingClick none none]
          trace := [Effect.getChatMessageFeedback "m1",
            Effect.submitChatFeedback "m1" (some Rating.thumbs_up)] }
        (ChatFeedbackButton.Event.click Rating.thumbs_down)
      = some
        { props := ⟨true, "m1", none⟩
          state := ⟨some Rating.thumbs_up, true, true, false⟩
          pending := [ChatFeedbackButton.Pending.loadFeedback,
            ChatFeedbackButton.Pending.handleRatingClick none none]
          trace := [Effect.getChatMessageFeedback "m1",
            Effect.submitChatFeedback "m1" (some Rating.thumbs_up)] }
    ∧ SummaryFeedbackButton.Config.submitsOutstanding
        { props := ⟨true, "j", "1", none⟩
          state := ⟨some Rating.thumbs_up, "", false, true, none, true, true⟩
          pending := [SummaryFeedbackButton.Pending.reloadFeedback]
          trace := [Effect.getSummaryFeedback "j" "1",
            Effect.submitSummaryFeedback "j" "1" (some Rating.thumbs_up) none,
            Effect.getSummaryFeedback "j" "1"] }
      + SummaryFeedbackButton.Config.reloadsOutstanding
        { props := ⟨true, "j", "1", none⟩
          state := ⟨some Rating.thumbs_up, "", false, true, none, true, true⟩
          pending := [SummaryFeedbackButton.Pending.reloadFeedback]
          trace := [Effect.getSummaryFeedback "j" "1",
            Effect.submitSummaryFeedback "j" "1" (some Rating.thumbs_up) none,
            Effect.getSummaryFeedback "j" "1"] } = 1 :=
  ⟨((single_in_flight_submit
      { props := ⟨true, "m1", none⟩
        state := ⟨some Rating.thumbs_up, true, true, false⟩
        pending := [ChatFeedbackButton.Pending.loadFeedback,
          ChatFeedbackButton.Pending.handleRatingClick none none]
        trace := [Effect.getChatMessageFeedback "m1",
          Effect.submitChatFeedback "m1" (some Rating.thumbs_up)] }
      { props := ⟨true, "j", "1", none⟩
        state := ⟨some Rating.thumbs_up, "", false, true, none, true, true⟩
        pending := [SummaryFeedbackButton.Pending.reloadFeedback]
        trace := [Effect.getSummaryFeedback "j" "1",
          Effect.submitSummaryFeedback "j" "1" (some Rating.thumbs_up) none,
          Effect.getSummaryFeedback "j" "1"] }
      Rating.thumbs_down (Outcome.resolved ()) (Outcome.resolved none)
      ⟨⟨true, "m1", none⟩, [ChatFeedbackButton.Event.click Rating.thumbs_up], by decide⟩
      ⟨⟨true, "j", "1", none⟩,
        [SummaryFeedbackButton.Event.loadSettled (Outcome.resolved none),
          SummaryFeedbackButton.Event.ratingClick Rating.thumbs_up,
          SummaryFeedbackButton.Event.ratingSubmitSettled ⟨true, "j", "1", none⟩ none
            (Outcome.resolved ())], by decide⟩).1.2.2 rfl).1,
   (single_in_flight_submit
      { props := ⟨true, "m1", none⟩
        state := ⟨some Rating.thumbs_up, true, true, false⟩
        pending := [ChatFeedbackButton.Pending.loadFeedback,
          ChatFeedbackButton.Pending.handleRatingClick none none]
        trace := [Effect.getChatMessageFeedback "m1",
          Effect.submitChatFeedback "m1" (some Rating.thumbs_up)] }
      { props := ⟨true, "j", "1", none⟩
        state := ⟨some Rating.thumbs_up, "", false, true, none, true, true⟩
        pending := [SummaryFeedbackButton.Pending.reloadFeedback]
        trace := [Effect.getSummaryFeedback "j" "1",
          Effect.submitSummaryFeedback "j" "1" (some Rating.thumbs_up) none,
          Effect.getSummaryFeedback "j" "1"] }
      Rating.thumbs_down (Outcome.resolved ()) (Outcome.resolved none)
      ⟨⟨true, "m1", none⟩, [ChatFeedbackButton.Event.click Rating.thumbs_up], by decide⟩
      ⟨⟨true, "j", "1", none⟩,
        [SummaryFeedbackButton.Event.loadSettled (Outcome.resolved none),
          SummaryFeedbackButton.Event.ratingClick Rating.thumbs_up,
          SummaryFeedbackButton.Event.ratingSubmitSettled ⟨true, "j", "1", none⟩ none
            (Outcome.resolved ())], by decide⟩).2.2.1.mp rfl⟩

/-- C5, counterexample.  Summary widget.  (1) After mount, a load response
whose `feedback_text` has 2001 characters puts 2001 characters into
`feedbackText`, and the thumbs_up click that follows submits them.  (2) The
`onChange` handler stores whatever value it is given: handed 2001 characters,
it puts them into `feedbackText`, and the text submission that follows submits
them. -/
theorem feedback_text_bound_counterexample :
    ((SummaryFeedbackButton.run (SummaryFeedbackButton.mount ⟨true, "j", "1", none⟩)
        [SummaryFeedbackButton.Event.loadSettled
            (Outcome.resolved (some ⟨some ⟨none, some (String.mk (List.replicate 2001 'a'))⟩,
              none⟩)),
          SummaryFeedbackButton.Event.ratingClick Rating.thumbs_up]).map
      (fun c => (c.state.feedbackText.length,
        (c.trace.filterMap Effect.submittedText).map (Option.map String.length)))
      = some (2001, [some 2001]))
    ∧ ((SummaryFeedbackButton.run (SummaryFeedbackButton.mount ⟨true, "j", "1", none⟩)
        [SummaryFeedbackButton.Event.loadSettled (Outcome.resolved none),
          SummaryFeedbackButton.Event.addCommentClick,
          SummaryFeedbackButton.Event.textChange (String.mk (List.replicate 2001 'a')),
          SummaryFeedbackButton.Event.textSubmitClick]).map
      (fun c => (c.state.feedbackText.length,
        (c.trace.filterMap Effect.submittedText).map (Option.map String.length)))
      = some (2001, [some 2001])) := by
  have hlen : (String.mk (List.replicate 2001 'a')).length = 2001 :=
    List.length_replicate 2001 'a'
  generalize String.mk (List.replicate 2001 'a') = t at hlen ⊢
  have hne : t ≠ "" := by
    intro h
    subst h
    exact absurd hlen (by decide)
  rw [summary_run_server_text t hne, summary_run_entered_text t hne]
  simp [Effect.submittedText, hlen]

/-- C5, amended.  Character bound in the summary widget: in every
configuration reached by events in which each `getSummaryFeedback` response
brings a `feedback_text` of at most 2000 characters and each value the
textarea's `onChange` reports has at most 2000 characters (the limit the
rendered textarea declares as its `maxLength`; the handler itself checks
nothing), `feedbackText` has at most 2000 characters, and so has the
`feedback_text` of every `submitSummaryFeedback` call issued; and whenever the
panel is rendered it declares `maxLength = 2000`. -/
theorem feedback_text_bound (p : SummaryFeedbackButton.Props)
    (es : List SummaryFeedbackButton.Event) (c : SummaryFeedbackButton.Config)
    (htext : ∀ e ∈ es, e.textWithinLimit = true)
    (hrun : SummaryFeedbackButton.run (SummaryFeedbackButton.mount p) es = some c) :
    c.state.feedbackText.length ≤ 2000
    ∧ (∀ rt rid rating text,
        Effect.submitSummaryFeedback rt rid rating (some text) ∈ c.trace →
        text.length ≤ 2000)
    ∧ (∀ v panel, SummaryFeedbackButton.render c.props c.state = some v →
        v.textPanel = some panel → panel.maxLength = 2000) := by
  obtain ⟨h1, h2⟩ :=
    summary_run_textBounded es _ _ (summary_mount_textBounded p) htext hrun
  refine ⟨h1, h2, ?_⟩
  intro v panel hv hp
  simp only [SummaryFeedbackButton.render] at hv
  split at hv
  · cases hv
  · cases hv
    simp only [] at hp
    split at hp
    · cases hp
      rfl
    · cases hp

/-- A run in which the server brings a short text, the user replaces it in
the panel and submits it. -/
theorem feedback_text_bound_witness :
    SummaryFeedbackButton.run (SummaryFeedbackButton.mount ⟨true, "j", "1", none⟩)
        [SummaryFeedbackButton.Event.loadSettled
            (Outcome.resolved (some ⟨some ⟨none, some "ok"⟩, none⟩)),
          SummaryFeedbackButton.Event.addCommentClick,
          SummaryFeedbackButton.Event.textChange "fine",
          SummaryFeedbackButton.Event.textSubmitClick]
      = some
        { props := ⟨true, "j", "1", none⟩
          state := ⟨none, "fine", true, true, none, false, true⟩
          pending := [SummaryFeedbackButton.Pending.handleTextSubmit ⟨true, "j", "1", none⟩]
          trace := [Effect.getSummaryFeedback "j" "1",
            Effect.submitSummaryFeedback "j" "1" none (some "fine")] }
    ∧ "fine".length ≤ 2000 :=
  ⟨by decide,
   (feedback_text_bound ⟨true, "j", "1", none⟩
      [SummaryFeedbackButton.Event.loadSettled
          (Outcome.resolved (some ⟨some ⟨none, some "ok"⟩, none⟩)),
        SummaryFeedbackButton.Event.addCommentClick,
        SummaryFeedbackButton.Event.textChange "fine",
        SummaryFeedbackButton.Event.textSubmitClick]
      { props := ⟨true, "j", "1", none⟩
        state := ⟨none, "fine", true, true, none, false, true⟩
        pending := [SummaryFeedbackButton.Pending.handleTextSubmit ⟨true, "j", "1", none⟩]
        trace := [Effect.getSummaryFeedback "j" "1",
          Effect.submitSummaryFeedback "j" "1" none (some "fine")] }
      (by decide) (by decide)).1⟩

/-- C6, counterexample.  (1) Message widget: mounted on message m1, whose load
reports thumbs_up, then re-rendered for message m2, whose load resolves without
`user_feedback`: the widget still shows `userRating = thumbs_up` and
`submitted = true`, not the no-prior-feedback state.  (2) Summary widget: the
same when the load for the new reference fails.  (3) Message widget, with
overlapping requests: a load still pending from an identity change reports
thumbs_down while a thumbs_up submit is in flight, the submit then rejects and
the handler restores the pre-click `userRating = none`; nothing is pending, no
submit has succeeded, the last rating the server reported is thumbs_down.
(4) Message widget with a callback that throws: the thumbs_up submit resolves,
so the server has acknowledged thumbs_up, and the `catch` block restores
`userRating = none`. -/
theorem user_rating_follows_server_counterexample :
    ((List.foldl ChatFeedbackButton.Session.apply
        (ChatFeedbackButton.Session.mount ⟨true, "m1", none⟩
          (Outcome.resolved (some ⟨some ⟨some Rating.thumbs_up⟩⟩)))
        [ChatFeedbackButton.Op.rerender ⟨true, "m2", none⟩
          (Outcome.resolved (some ⟨none⟩))]).state
      = ⟨some Rating.thumbs_up, false, false, true⟩)
    ∧ ((List.foldl SummaryFeedbackButton.Session.apply
        (SummaryFeedbackButton.Session.mount ⟨true, "j", "1", none⟩
          (Outcome.resolved (some ⟨some ⟨some Rating.thumbs_up, none⟩, none⟩)))
        [SummaryFeedbackButton.Op.rerender ⟨true, "j", "2", none⟩
          (Outcome.rejected "503")]).state
      = ⟨some Rating.thumbs_up, "", false, false, none, false, true⟩)
    ∧ ((ChatFeedbackButton.run (ChatFeedbackButton.mount ⟨true, "m1", none⟩)
        [ChatFeedbackButton.Event.rerender ⟨true, "m2", none⟩,
          ChatFeedbackButton.Event.loadSettled (Outcome.resolved none),
          ChatFeedbackButton.Event.click Rating.thumbs_up,
          ChatFeedbackButton.Event.loadSettled
            (Outcome.resolved (some ⟨some ⟨some Rating.thumbs_down⟩⟩)),
          ChatFeedbackButton.Event.submitSettled none none (Outcome.rejected "503")]).map
        (fun c => (c.pending, c.state.userRating)) = some ([], none)
      ∧ List.findSome? ChatFeedbackButton.Event.reported
          [ChatFeedbackButton.Event.submitSettled none none (Outcome.rejected "503"),
            ChatFeedbackButton.Event.loadSettled
              (Outcome.resolved (some ⟨some ⟨some Rating.thumbs_down⟩⟩)),
            ChatFeedbackButton.Event.click Rating.thumbs_up,
            ChatFeedbackButton.Event.loadSettled (Outcome.resolved none),
            ChatFeedbackButton.Event.rerender ⟨true, "m2", none⟩]
          = some (some Rating.thumbs_down))
    ∧ ((List.foldl ChatFeedbackButton.Session.apply
          (ChatFeedbackButton.Session.mount ⟨true, "m1", some (Callback.throws "boom")⟩
            (Outcome.resolved none))
          [ChatFeedbackButton.Op.click Rating.thumbs_up (Outcome.resolved ())]).state.userRating
        = none
      ∧ ChatFeedbackButton.serverRating
          (List.foldl ChatFeedbackButton.Session.apply
            (ChatFeedbackButton.Session.mount ⟨true, "m1", some (Callback.throws "boom")⟩
              (Outcome.resolved none))
            [ChatFeedbackButton.Op.click Rating.thumbs_up (Outcome.resolved ())]).exchanges
        = some Rating.thumbs_up) := by
  refine ⟨?_, ?_, ⟨?_, ?_⟩, ?_, ?_⟩ <;> decide

/-- C6, amended.  In either widget, along a session (every request settles
before the next event is processed) in which the parent callback is absent or
returns normally, `userRating` equals the rating the server
last reported or acknowledged: that of the most recent load whose response
carried `user_feedback` or submit that resolved, whichever subject it was for,
and none when there has been neither.  A load that fails, or whose response
carries no `user_feedback`, leaves `userRating` and `submitted` as they were;
so it leaves the no-prior-feedback state (`userRating = none`,
`submitted = false`) in place on a fresh mount, and does not restore it after
an earlier subject had a rating. -/
theorem user_rating_follows_server
    (pc : ChatFeedbackButton.Props) (oc : Outcome (Option ChatFeedbackButton.Response))
    (opsc : List ChatFeedbackButton.Op)
    (ps : SummaryFeedbackButton.Props) (os : Outcome (Option SummaryFeedbackButton.Response))
    (opss : List SummaryFeedbackButton.Op)
    (sc : ChatFeedbackButton.State) (lc : Outcome (Option ChatFeedbackButton.Response))
    (ss : SummaryFeedbackButton.State) (ls : Outcome (Option SummaryFeedbackButton.Response))
    (hlc : ChatFeedbackButton.reportedRating lc = none)
    (hls : SummaryFeedbackButton.reportedRating ls = none)
    (hpc : callbackReturns pc.onFeedbackSubmitted = true)
    (hopsc : ∀ op ∈ opsc, op.callbackReturns = true)
    (hps : callbackReturns ps.onFeedbackSubmitted = true)
    (hopss : ∀ op ∈ opss, op.callbackReturns = true) :
    ((List.foldl ChatFeedbackButton.Session.apply (ChatFeedbackButton.Session.mount pc oc)
        opsc).state.userRating
      = ChatFeedbackButton.serverRating
          (List.foldl ChatFeedbackButton.Session.apply (ChatFeedbackButton.Session.mount pc oc)
            opsc).exchanges)
    ∧ ((List.foldl SummaryFeedbackButton.Session.apply
        (SummaryFeedbackButton.Session.mount ps os) opss).state.userRating
      = SummaryFeedbackButton.serverRating
          (List.foldl SummaryFeedbackButton.Session.apply
            (SummaryFeedbackButton.Session.mount ps os) opss).exchanges)
    ∧ ((runJs (ChatFeedbackButton.loadFeedback pc lc) sc).2.state.userRating = sc.userRating
      ∧ (runJs (ChatFeedbackButton.loadFeedback pc lc) sc).2.state.submitted = sc.submitted)
    ∧ ((runJs (SummaryFeedbackButton.loadFeedback ps ls) ss).2.state.userRating = ss.userRating
      ∧ (runJs (SummaryFeedbackButton.loadFeedback ps ls) ss).2.state.submitted = ss.submitted)
    ∧ ((ChatFeedbackButton.Session.mount pc lc).state.userRating = none
      ∧ (ChatFeedbackButton.Session.mount pc lc).state.submitted = false)
    ∧ ((SummaryFeedbackButton.Session.mount ps ls).state.userRating = none
      ∧ (SummaryFeedbackButton.Session.mount ps ls).state.submitted = false) := by
  have hc : ∀ s : ChatFeedbackButton.State,
      (runJs (ChatFeedbackButton.loadFeedback pc lc) s).2.state.userRating = s.userRating
      ∧ (runJs (ChatFeedbackButton.loadFeedback pc lc) s).2.state.submitted = s.submitted := by
    intro s
    by_cases hsk : pc.isAuthenticated = false ∨ pc.messageId = ""
    · rw [chat_loadFeedback_skip pc s lc hsk]
      exact ⟨rfl, rfl⟩
    · have ha : pc.isAuthenticated = true := by simpa using (not_or.mp hsk).1
      rw [(chat_loadFeedback_state pc s lc ha (not_or.mp hsk).2).2, hlc]
      exact ⟨rfl, rfl⟩
  have hs : ∀ s : SummaryFeedbackButton.State,
      (runJs (SummaryFeedbackButton.loadFeedback ps ls) s).2.state.userRating = s.userRating
      ∧ (runJs (SummaryFeedbackButton.loadFeedback ps ls) s).2.state.submitted
          = s.submitted := by
    intro s
    by_cases ha : ps.isAuthenticated = true
    · obtain ⟨-, h1, h2, -⟩ := summary_loadFeedback_state ps s ls ha
      rw [h1, h2, hls]
      exact ⟨rfl, rfl⟩
    · rw [summary_loadFeedback_skip ps s ls (by simpa using ha)]
      exact ⟨rfl, rfl⟩
  refine ⟨?_, ?_, hc sc, hs ss, ?_, ?_⟩
  · exact chat_session_tracks opsc _ (chat_mount_tracks pc oc)
      hpc hopsc
  · exact summary_session_tracks opss _
      (summary_mount_tracks ps os) hps hopss
  · simp only [ChatFeedbackButton.Session.mount]
    by_cases hsk : pc.isAuthenticated = false ∨ pc.messageId = ""
    · rw [chat_useEffect_skip pc _ lc hsk]
      exact ⟨rfl, rfl⟩
    · have ha : pc.isAuthenticated = true := by simpa using (not_or.mp hsk).1
      rw [(chat_useEffect_load pc _ lc ha (not_or.mp hsk).2).1, hlc]
      exact ⟨rfl, rfl⟩
  · simp only [SummaryFeedbackButton.Session.mount]
    by_cases hsk : ps.isAuthenticated = false ∨ ps.referenceType = "" ∨ ps.referenceId = ""
    · rw [summary_useEffect_skip ps _ ls hsk]
      exact ⟨rfl, rfl⟩
    · have ha : ps.isAuthenticated = true := by simpa using (not_or.mp hsk).1
      rw [summary_useEffect_load ps _ ls ha (not_or.mp (not_or.mp hsk).2).1
        (not_or.mp (not_or.mp hsk).2).2]
      exact hs SummaryFeedbackButton.State.initial

/-- A message-widget session: mount reporting thumbs_up, a resolved click on
thumbs_down, then a change of message whose load fails; and a failed load on a
freshly mounted summary widget. -/
theorem user_rating_follows_server_witness :
    ((List.foldl ChatFeedbackButton.Session.apply
        (ChatFeedbackButton.Session.mount ⟨true, "m1", none⟩
          (Outcome.resolved (some ⟨some ⟨some Rating.thumbs_up⟩⟩)))
        [ChatFeedbackButton.Op.click Rating.thumbs_down (Outcome.resolved ()),
          ChatFeedbackButton.Op.rerender ⟨true, "m2", none⟩
            (Outcome.rejected "503")]).state.userRating
      = some Rating.thumbs_down)
    ∧ ((SummaryFeedbackButton.Session.mount ⟨true, "j", "1", none⟩
        (Outcome.rejected "503")).state.userRating = none) :=
  ⟨(user_rating_follows_server ⟨true, "m1", none⟩
      (Outcome.resolved (some ⟨some ⟨some Rating.thumbs_up⟩⟩))
      [ChatFeedbackButton.Op.click Rating.thumbs_down (Outcome.resolved ()),
        ChatFeedbackButton.Op.rerender ⟨true, "m2", none⟩ (Outcome.rejected "503")]
      ⟨true, "j", "1", none⟩ (Outcome.rejected "503") []
      ChatFeedbackButton.State.initial (Outcome.rejected "503")
      SummaryFeedbackButton.State.initial (Outcome.rejected "503") rfl rfl rfl (by decide) rfl
      (by decide)).1.trans
      (by decide),
   (user_rating_follows_server ⟨true, "m1", none⟩
      (Outcome.resolved (some ⟨some ⟨some Rating.thumbs_up⟩⟩))
      [ChatFeedbackButton.Op.click Rating.thumbs_down (Outcome.resolved ()),
        ChatFeedbackButton.Op.rerender ⟨true, "m2", none⟩ (Outcome.rejected "503")]
      ⟨true, "j", "1", none⟩ (Outcome.rejected "503") []
      ChatFeedbackButton.State.initial (Outcome.rejected "503")
      SummaryFeedbackButton.State.initial (Outcome.rejected "503") rfl rfl rfl (by decide) rfl
      (by decide)).2.2.2.2.2.1⟩

end Feedback
